import Mathlib

/-!
# Power-management lease counter of the Mali kbase driver

A shallow embedding of `drivers/gpu/arm/t7xx/r15p0/mali_kbase_pm.c`.

* The device fields the file touches are gathered in `kbase_device`.
* Every function of the file becomes a pure function that returns the value
  returned by the C function, the device after the call and the list of
  observable actions (`Event`) the call performed, in program order.
* `kbdev->pm.active_count` is a C `int`; it is embedded as an unbounded `Int`
  (signed overflow is undefined in C, so the embedding describes the executions
  in which the number of outstanding leases stays inside the range of `int`).
* `KBASE_DEBUG_ASSERT` is embedded as an event `Event.debug_assert_fail` which
  is recorded when the asserted condition is false; execution then continues as
  it does in a build without `CONFIG_MALI_DEBUG`.
* Calls into the hardware-access backend, the timeline and the trace buffer are
  recorded as events.
-/

namespace MaliKbasePm

/-! ## Data model -/

/-- Build-time switches that select code inside `mali_kbase_pm.c`. -/
structure Config where
  CONFIG_MALI_SEC_UTILIZATION : Bool
  CONFIG_MALI_SEC_HWCNT : Bool
  deriving DecidableEq, Repr

/-- The argument type `enum kbase_pm_suspend_handler`.  The three enumerators are the
ones named by the `case` labels of the source; `OTHER` stands for any value of the C
enum type that is none of them and therefore reaches the `default:` label. -/
inductive kbase_pm_suspend_handler where
  | KBASE_PM_SUSPEND_HANDLER_NOT_POSSIBLE
  | KBASE_PM_SUSPEND_HANDLER_DONT_INCREASE
  | KBASE_PM_SUSPEND_HANDLER_DONT_REACTIVATE
  | OTHER (raw : Nat)
  deriving DecidableEq, Repr

/-- The locks taken by the file. -/
inductive Lock where
  | runpool_mutex
  | pm_lock
  | hwaccess_lock
  | gpu_powered_lock
  | metrics_lock
  | hwcnt_mlock
  deriving DecidableEq, Repr

/-- The timeline events used by the file. -/
inductive TimelineEvent where
  | KBASE_TIMELINE_PM_EVENT_GPU_ACTIVE
  | KBASE_TIMELINE_PM_EVENT_GPU_IDLE
  deriving DecidableEq, Repr

/-- The trace codes used by the file. -/
inductive TraceCode where
  | PM_CONTEXT_ACTIVE
  | PM_CONTEXT_IDLE
  deriving DecidableEq, Repr

/-- The three debug assertions of the file that can fail (`kbdev != NULL` cannot, a
`kbase_device` value always exists). -/
inductive Assertion where
  | unreachable
  | count_nonneg
  | not_suspending
  deriving DecidableEq, Repr

/-- Observable actions, in program order. -/
inductive Event where
  | lock (l : Lock)
  | unlock (l : Lock)
  | timeline_pm_send_event (e : TimelineEvent)
  | timeline_pm_handle_event (e : TimelineEvent)
  | timeline_context_active (c : Int)
  | trace_add_refcount (code : TraceCode) (c : Int)
  | debug_assert_fail (a : Assertion)
  | hwaccess_pm_gpu_active
  | hwaccess_pm_gpu_idle
  | hwaccess_pm_gpu_keep_active_nolock
  | ktime_get
  | pm_metrics_update
  | store_metrics_gpu_active (v : Bool)
  | store_suspending (v : Bool)
  | wake_up_zero_active_count_wait
  | wait_event_condition (observed : Int)
  | schedule
  | js_suspend
  | js_resume
  | vinstr_suspend
  | vinstr_resume
  | hwcnt_disable
  | hwcnt_enable
  | resume_suspended_soft_jobs
  | hwaccess_pm_suspend
  | hwaccess_pm_resume
  | hwaccess_pm_powerup (flags : Nat)
  | hwaccess_pm_halt
  deriving DecidableEq, Repr

/-- The fields of `struct kbase_device` read or written by the file:
`pm.active_count`, `pm.suspending`, `pm.backend.gpu_powered` and
`pm.backend.metrics.gpu_active`. -/
structure kbase_device where
  active_count : Int
  suspending : Bool
  gpu_powered : Bool
  metrics_gpu_active : Bool
  deriving DecidableEq, Repr

/-- Linux errno value `ENOENT`. -/
def ENOENT : Int := 2

/-- Linux errno value `EAGAIN`. -/
def EAGAIN : Int := 11

/-- Modelled from the spec: the inline helper `kbase_pm_is_suspending` is declared in a
header that is not part of the sources; the suspend flag is "read by lease-acquisition
requests", so the helper returns `kbdev->pm.suspending`. -/
def kbase_pm_is_suspending (kbdev : kbase_device) : Bool :=
  kbdev.suspending

/-! ## Lease operations -/

/-- The four lock acquisitions at the head of
`kbase_pm_context_hold_noactivate_handle_suspend`. -/
def hold_lock_all : List Event :=
  [Event.lock Lock.runpool_mutex, Event.lock Lock.pm_lock,
   Event.lock Lock.hwaccess_lock, Event.lock Lock.gpu_powered_lock]

/-- The four releases that precede every `return` of
`kbase_pm_context_hold_noactivate_handle_suspend`. -/
def hold_unlock_all : List Event :=
  [Event.unlock Lock.gpu_powered_lock, Event.unlock Lock.hwaccess_lock,
   Event.unlock Lock.pm_lock, Event.unlock Lock.runpool_mutex]

/-- Embedding of `kbase_pm_context_hold_noactivate_handle_suspend`: returned value, device after
the call, events. -/
def kbase_pm_context_hold_noactivate_handle_suspend (kbdev : kbase_device)
    (suspend_handler : kbase_pm_suspend_handler) : Int × kbase_device × List Event :=
  if !kbdev.gpu_powered then
    (-ENOENT, kbdev, hold_lock_all ++ hold_unlock_all)
  else
    let proceed (t_switch : List Event) : Int × kbase_device × List Event :=
      let c := kbdev.active_count + 1
      let kbdev1 := { kbdev with active_count := c }
      (0, kbdev1,
        hold_lock_all ++ t_switch
          ++ (if c = 1 then [Event.hwaccess_pm_gpu_keep_active_nolock] else [])
          ++ hold_unlock_all)
    if kbase_pm_is_suspending kbdev then
      match suspend_handler with
      | .KBASE_PM_SUSPEND_HANDLER_DONT_REACTIVATE => proceed []
      | .KBASE_PM_SUSPEND_HANDLER_DONT_INCREASE =>
        (-EAGAIN, kbdev, hold_lock_all ++ hold_unlock_all)
      | .KBASE_PM_SUSPEND_HANDLER_NOT_POSSIBLE =>
        proceed [Event.debug_assert_fail Assertion.unreachable]
      | .OTHER _ => proceed [Event.debug_assert_fail Assertion.unreachable]
    else
      proceed []

/-- The block compiled under `CONFIG_MALI_SEC_UTILIZATION` after a hardware notification. -/
def sec_utilization_events (cfg : Config) (v : Bool) : List Event :=
  if cfg.CONFIG_MALI_SEC_UTILIZATION then
    [Event.ktime_get, Event.lock Lock.hwaccess_lock, Event.pm_metrics_update,
     Event.unlock Lock.hwaccess_lock, Event.lock Lock.metrics_lock,
     Event.store_metrics_gpu_active v, Event.unlock Lock.metrics_lock]
  else []

/-- Embedding of `kbase_pm_context_active_handle_suspend`: returned value, device after the call,
events. -/
def kbase_pm_context_active_handle_suspend (cfg : Config) (kbdev : kbase_device)
    (suspend_handler : kbase_pm_suspend_handler) : Int × kbase_device × List Event :=
  let old_count := kbdev.active_count
  let t_send : List Event :=
    if old_count = 0 then
      [Event.timeline_pm_send_event TimelineEvent.KBASE_TIMELINE_PM_EVENT_GPU_ACTIVE]
    else []
  let t_handle : List Event :=
    if old_count = 0 then
      [Event.timeline_pm_handle_event TimelineEvent.KBASE_TIMELINE_PM_EVENT_GPU_ACTIVE]
    else []
  let t_lock : List Event := [Event.lock Lock.runpool_mutex, Event.lock Lock.pm_lock]
  let t_unlock : List Event := [Event.unlock Lock.pm_lock, Event.unlock Lock.runpool_mutex]
  let rejected : Int × kbase_device × List Event :=
    (1, kbdev, t_send ++ t_lock ++ t_unlock ++ t_handle)
  let proceed (t_switch : List Event) : Int × kbase_device × List Event :=
    let c := kbdev.active_count + 1
    let kbdev1 := { kbdev with active_count := c }
    let t_count : List Event :=
      [Event.timeline_context_active c, Event.trace_add_refcount TraceCode.PM_CONTEXT_ACTIVE c]
    if c = 1 then
      (0,
        (if cfg.CONFIG_MALI_SEC_UTILIZATION then { kbdev1 with metrics_gpu_active := true }
          else kbdev1),
        t_send ++ t_lock ++ t_switch ++ t_count ++ t_handle
          ++ [Event.hwaccess_pm_gpu_active] ++ sec_utilization_events cfg true ++ t_unlock)
    else
      (0, kbdev1, t_send ++ t_lock ++ t_switch ++ t_count ++ t_handle ++ t_unlock)
  if kbase_pm_is_suspending kbdev then
    match suspend_handler with
    | .KBASE_PM_SUSPEND_HANDLER_DONT_REACTIVATE =>
      if kbdev.active_count ≠ 0 then proceed [] else rejected
    | .KBASE_PM_SUSPEND_HANDLER_DONT_INCREASE => rejected
    | .KBASE_PM_SUSPEND_HANDLER_NOT_POSSIBLE =>
      proceed [Event.debug_assert_fail Assertion.unreachable]
    | .OTHER _ => proceed [Event.debug_assert_fail Assertion.unreachable]
  else
    proceed []

/-- Embedding of `kbase_pm_context_active`: the result of the call is discarded. -/
def kbase_pm_context_active (cfg : Config) (kbdev : kbase_device) : kbase_device × List Event :=
  (kbase_pm_context_active_handle_suspend cfg kbdev
    kbase_pm_suspend_handler.KBASE_PM_SUSPEND_HANDLER_NOT_POSSIBLE).2

/-- Embedding of `kbase_pm_context_idle`: device after the call, events. -/
def kbase_pm_context_idle (cfg : Config) (kbdev : kbase_device) : kbase_device × List Event :=
  let old_count := kbdev.active_count
  let t_send : List Event :=
    if old_count = 0 then
      [Event.timeline_pm_send_event TimelineEvent.KBASE_TIMELINE_PM_EVENT_GPU_IDLE]
    else []
  let t_handle : List Event :=
    if old_count = 0 then
      [Event.timeline_pm_handle_event TimelineEvent.KBASE_TIMELINE_PM_EVENT_GPU_IDLE]
    else []
  let t_lock : List Event := [Event.lock Lock.runpool_mutex, Event.lock Lock.pm_lock]
  let t_unlock : List Event := [Event.unlock Lock.pm_lock, Event.unlock Lock.runpool_mutex]
  let c := kbdev.active_count - 1
  let kbdev1 := { kbdev with active_count := c }
  let t_count : List Event :=
    [Event.timeline_context_active c, Event.trace_add_refcount TraceCode.PM_CONTEXT_IDLE c]
  let t_assert : List Event :=
    if 0 ≤ c then [] else [Event.debug_assert_fail Assertion.count_nonneg]
  if c = 0 then
    ((if cfg.CONFIG_MALI_SEC_UTILIZATION then { kbdev1 with metrics_gpu_active := false }
        else kbdev1),
      t_send ++ t_lock ++ t_count ++ t_assert ++ t_handle
        ++ [Event.hwaccess_pm_gpu_idle] ++ sec_utilization_events cfg false
        ++ [Event.wake_up_zero_active_count_wait] ++ t_unlock)
  else
    (kbdev1, t_send ++ t_lock ++ t_count ++ t_assert ++ t_handle ++ t_unlock)

/-! ## Sequences of lease calls -/

/-- A call of one of the two counting entry points: `acquire h` is
`kbase_pm_context_active_handle_suspend(kbdev, h)`, `release` is `kbase_pm_context_idle(kbdev)`. -/
inductive PmCall where
  | acquire (suspend_handler : kbase_pm_suspend_handler)
  | release
  deriving DecidableEq, Repr

/-- Device and events after one call. -/
def PmCall.exec (cfg : Config) (kbdev : kbase_device) : PmCall → kbase_device × List Event
  | .acquire h => (kbase_pm_context_active_handle_suspend cfg kbdev h).2
  | .release => kbase_pm_context_idle cfg kbdev

/-- A lease operation: the two counting entry points and the try-acquire variant
`kbase_pm_context_hold_noactivate_handle_suspend`. -/
inductive LeaseOp where
  | acquire (suspend_handler : kbase_pm_suspend_handler)
  | try_acquire (suspend_handler : kbase_pm_suspend_handler)
  | release
  deriving DecidableEq, Repr

/-- Device and events after one lease operation. -/
def LeaseOp.exec (cfg : Config) (kbdev : kbase_device) : LeaseOp → kbase_device × List Event
  | .acquire h => (kbase_pm_context_active_handle_suspend cfg kbdev h).2
  | .try_acquire h => (kbase_pm_context_hold_noactivate_handle_suspend kbdev h).2
  | .release => kbase_pm_context_idle cfg kbdev

/-- Runs a sequence of calls one after the other: final device and the concatenated events. -/
def run_seq {α : Type} (exec : kbase_device → α → kbase_device × List Event) :
    kbase_device → List α → kbase_device × List Event
  | kbdev, [] => (kbdev, [])
  | kbdev, c :: rest =>
    ((run_seq exec (exec kbdev c).1 rest).1, (exec kbdev c).2 ++ (run_seq exec (exec kbdev c).1 rest).2)

/-- Runs a sequence of acquire/release calls. -/
def run_calls (cfg : Config) (kbdev : kbase_device) (calls : List PmCall) :
    kbase_device × List Event :=
  run_seq (PmCall.exec cfg) kbdev calls

/-- Runs a sequence of lease operations. -/
def run_ops (cfg : Config) (kbdev : kbase_device) (ops : List LeaseOp) :
    kbase_device × List Event :=
  run_seq (LeaseOp.exec cfg) kbdev ops

/-- Every `release` of the sequence is made while `active_count > 0`. -/
def releases_hold_lease (cfg : Config) : kbase_device → List PmCall → Bool
  | _, [] => true
  | kbdev, .release :: rest =>
    decide (0 < kbdev.active_count) && releases_hold_lease cfg (kbase_pm_context_idle cfg kbdev).1 rest
  | kbdev, .acquire h :: rest =>
    releases_hold_lease cfg (PmCall.exec cfg kbdev (.acquire h)).1 rest

/-- Number of calls of the sequence that take `active_count` from `a` to `b`. -/
def crossings (cfg : Config) (a b : Int) : kbase_device → List PmCall → Nat
  | _, [] => 0
  | kbdev, c :: rest =>
    (if kbdev.active_count = a ∧ (c.exec cfg kbdev).1.active_count = b then 1 else 0)
      + crossings cfg a b (c.exec cfg kbdev).1 rest

/-- Number of `acquire` calls in a sequence. -/
def num_acquires : List PmCall → Nat
  | [] => 0
  | .acquire _ :: rest => num_acquires rest + 1
  | .release :: rest => num_acquires rest

/-- Number of `release` calls in a sequence. -/
def num_releases : List PmCall → Nat
  | [] => 0
  | .acquire _ :: rest => num_releases rest
  | .release :: rest => num_releases rest + 1

/-! ## Suspend and resume -/

/-- What the rest of the driver does to the device while `kbase_pm_suspend` and 
`kbase_pm_resume` call out or sleep.  Each collaborator is a transformer of the device (the
scheduler, for one, releases its leases); `concurrent k` is what other threads do while the
caller sleeps for the `k`-th time inside `wait_event`.  `hwcnt_disable_cb` and
`hwcnt_enable_cb` are the vendor callbacks, which may be `NULL`. -/
structure Collaborators where
  kbasep_js_suspend : kbase_device → kbase_device
  kbase_vinstr_suspend : kbase_device → kbase_device
  hwcnt_disable_cb : Option (kbase_device → kbase_device)
  concurrent : Nat → kbase_device → kbase_device
  kbase_hwaccess_pm_suspend : kbase_device → kbase_device
  kbase_hwaccess_pm_resume : kbase_device → kbase_device
  kbase_vinstr_resume : kbase_device → kbase_device
  hwcnt_enable_cb : Option (kbase_device → kbase_device)
  kbase_resume_suspended_soft_jobs : kbase_device → kbase_device
  kbasep_js_resume : kbase_device → kbase_device
  kbase_hwaccess_pm_powerup : kbase_device → Nat → Int
  kbase_hwaccess_pm_halt : kbase_device → kbase_device

/-- Outcome of a call that may block: `returned = false` when the call is still blocked once
the fuel is used up; `trace` holds the events performed so far in either case. -/
structure Run where
  returned : Bool
  kbdev : kbase_device
  trace : List Event

/-- Embedding of `wait_event(kbdev->pm.zero_active_count_wait, kbdev->pm.active_count == 0)`: the
condition is evaluated, and while it is false the caller sleeps and evaluates it again.
`fuel` bounds the number of evaluations, `k` counts the sleeps done so far. -/
def wait_event_zero_active_count (env : Collaborators) : Nat → Nat → kbase_device → Run
  | 0, _, kbdev => { returned := false, kbdev := kbdev, trace := [] }
  | fuel + 1, k, kbdev =>
    if kbdev.active_count = 0 then
      { returned := true, kbdev := kbdev,
        trace := [Event.wait_event_condition kbdev.active_count] }
    else
      let r := wait_event_zero_active_count env fuel (k + 1) (env.concurrent k kbdev)
      { returned := r.returned, kbdev := r.kbdev,
        trace := Event.wait_event_condition kbdev.active_count :: Event.schedule :: r.trace }

/-- The part of `kbase_pm_suspend` before the drain wait: device and events. -/
def kbase_pm_suspend_entry (cfg : Config) (env : Collaborators) (kbdev : kbase_device) :
    kbase_device × List Event :=
  let t_assert : List Event :=
    if !kbase_pm_is_suspending kbdev then [] else [Event.debug_assert_fail Assertion.not_suspending]
  let kbdev1 := { kbdev with suspending := true }
  let t_flag : List Event :=
    [Event.lock Lock.pm_lock] ++ t_assert ++ [Event.store_suspending true, Event.unlock Lock.pm_lock]
  let kbdev2 := env.kbasep_js_suspend kbdev1
  if cfg.CONFIG_MALI_SEC_HWCNT then
    match env.hwcnt_disable_cb with
    | some cb =>
      (cb kbdev2, t_flag ++ [Event.js_suspend, Event.lock Lock.hwcnt_mlock, Event.hwcnt_disable,
        Event.unlock Lock.hwcnt_mlock])
    | none =>
      (kbdev2, t_flag ++ [Event.js_suspend, Event.lock Lock.hwcnt_mlock,
        Event.unlock Lock.hwcnt_mlock])
  else
    (env.kbase_vinstr_suspend kbdev2, t_flag ++ [Event.js_suspend, Event.vinstr_suspend])

/-- Embedding of `kbase_pm_suspend`, with `fuel` evaluations of the wait condition. -/
def kbase_pm_suspend (cfg : Config) (env : Collaborators) (fuel : Nat) (kbdev : kbase_device) :
    Run :=
  let e := kbase_pm_suspend_entry cfg env kbdev
  let w := wait_event_zero_active_count env fuel 0 e.1
  if w.returned then
    { returned := true, kbdev := env.kbase_hwaccess_pm_suspend w.kbdev,
      trace := e.2 ++ w.trace ++ [Event.hwaccess_pm_suspend] }
  else
    { returned := false, kbdev := w.kbdev, trace := e.2 ++ w.trace }

/-- Embedding of `kbase_pm_resume`: device after the call, events. -/
def kbase_pm_resume (cfg : Config) (env : Collaborators) (kbdev : kbase_device) :
    kbase_device × List Event :=
  let kbdev1 := env.kbase_hwaccess_pm_resume kbdev
  let a := kbase_pm_context_active cfg kbdev1
  let i : kbase_device × List Event :=
    if cfg.CONFIG_MALI_SEC_HWCNT then
      match env.hwcnt_enable_cb with
      | some cb =>
        (cb a.1, [Event.lock Lock.hwcnt_mlock, Event.hwcnt_enable, Event.unlock Lock.hwcnt_mlock])
      | none => (a.1, [Event.lock Lock.hwcnt_mlock, Event.unlock Lock.hwcnt_mlock])
    else
      (env.kbase_vinstr_resume a.1, [Event.vinstr_resume])
  let kbdev2 := env.kbase_resume_suspended_soft_jobs i.1
  let kbdev3 := env.kbasep_js_resume kbdev2
  let r := kbase_pm_context_idle cfg kbdev3
  (r.1, [Event.hwaccess_pm_resume] ++ a.2 ++ i.2
    ++ [Event.resume_suspended_soft_jobs, Event.js_resume] ++ r.2)

/-- Embedding of `kbase_pm_powerup`: the value of the hardware-access call is returned. -/
def kbase_pm_powerup (env : Collaborators) (kbdev : kbase_device) (flags : Nat) :
    Int × kbase_device × List Event :=
  (env.kbase_hwaccess_pm_powerup kbdev flags, kbdev, [Event.hwaccess_pm_powerup flags])

/-- Embedding of `kbase_pm_halt`. -/
def kbase_pm_halt (env : Collaborators) (kbdev : kbase_device) : kbase_device × List Event :=
  (env.kbase_hwaccess_pm_halt kbdev, [Event.hwaccess_pm_halt])

/-- The device at bring-up: no lease, no suspend in progress, power off. -/
def kbdev_init : kbase_device :=
  { active_count := 0, suspending := false, gpu_powered := false, metrics_gpu_active := false }

/-- The events that are calls into the hardware-access backend. -/
def Event.is_hw_call : Event → Bool
  | .hwaccess_pm_gpu_active => true
  | .hwaccess_pm_gpu_idle => true
  | .hwaccess_pm_gpu_keep_active_nolock => true
  | .pm_metrics_update => true
  | .hwaccess_pm_suspend => true
  | .hwaccess_pm_resume => true
  | .hwaccess_pm_powerup _ => true
  | .hwaccess_pm_halt => true
  | _ => false

/-- A device with the given lease count and suspend flag, power on. -/
def kbdev_powered (active_count : Int) (suspending : Bool) : kbase_device :=
  { active_count := active_count, suspending := suspending, gpu_powered := true,
    metrics_gpu_active := false }

/-- A configuration with both vendor switches off, used for concrete runs. -/
def cfg_plain : Config :=
  { CONFIG_MALI_SEC_UTILIZATION := false, CONFIG_MALI_SEC_HWCNT := false }

/-- A configuration with both vendor switches on, used for concrete runs. -/
def cfg_sec : Config :=
  { CONFIG_MALI_SEC_UTILIZATION := true, CONFIG_MALI_SEC_HWCNT := true }

/-- The device seen by the wait loop after `j` more sleeps, when it is `kbdev` before the sleep
number `k`. -/
def drain_from (env : Collaborators) : Nat → kbase_device → Nat → kbase_device
  | _, kbdev, 0 => kbdev
  | k, kbdev, j + 1 => drain_from env (k + 1) (env.concurrent k kbdev) j

/-- Collaborators that leave the device alone, except that the other threads release one lease
during every sleep of the drain wait. -/
def env_draining : Collaborators :=
  { kbasep_js_suspend := id
    kbase_vinstr_suspend := id
    hwcnt_disable_cb := none
    concurrent := fun _ d => { d with active_count := d.active_count - 1 }
    kbase_hwaccess_pm_suspend := id
    kbase_hwaccess_pm_resume := id
    kbase_vinstr_resume := id
    hwcnt_enable_cb := none
    kbase_resume_suspended_soft_jobs := id
    kbasep_js_resume := id
    kbase_hwaccess_pm_powerup := fun _ _ => 0
    kbase_hwaccess_pm_halt := id }

/-- Collaborators that leave the device alone; nobody releases a lease during the drain wait. -/
def env_stuck : Collaborators :=
  { env_draining with concurrent := fun _ d => d }

/-- The events that record a failed debug assertion. -/
def Event.is_debug_assert : Event → Bool
  | .debug_assert_fail _ => true
  | _ => false

/-- The events that record a `KBASE_TRACE_ADD_REFCOUNT` with the given trace code: one is emitted
by every granted acquire (`PM_CONTEXT_ACTIVE`) and by every release (`PM_CONTEXT_IDLE`). -/
def Event.is_refcount (code : TraceCode) : Event → Bool
  | .trace_add_refcount c _ => decide (c = code)
  | _ => false

/-- The events of the timeline (`kbase_timeline_pm_send_event`, `kbase_timeline_pm_handle_event`). -/
def Event.is_timeline_pm : Event → Bool
  | .timeline_pm_send_event _ => true
  | .timeline_pm_handle_event _ => true
  | _ => false

/-- Position of a lock in the hierarchy run-pool mutex, `pm.lock`, `hwaccess_lock`,
`gpu_powered_lock`; the two vendor locks are outside the hierarchy. -/
def lock_rank : Lock → Option Nat
  | .runpool_mutex => some 0
  | .pm_lock => some 1
  | .hwaccess_lock => some 2
  | .gpu_powered_lock => some 3
  | .metrics_lock => none
  | .hwcnt_mlock => none

/-- A lock may be taken when it is not held already and no held lock of the hierarchy is at the
same position or further in than the lock taken. -/
def may_acquire (held : List Lock) (l : Lock) : Bool :=
  !held.contains l &&
    held.all fun h =>
      match lock_rank h, lock_rank l with
      | some a, some b => decide (a < b)
      | _, _ => true

/-- One event against the stack of held locks (most recent first): taking a lock must be allowed
by `may_acquire`, a release must release the most recently taken lock; `none` is a violation. -/
def discipline_step (held : List Lock) : Event → Option (List Lock)
  | .lock l => if may_acquire held l then some (l :: held) else none
  | .unlock l =>
    match held with
    | top :: rest => if top = l then some rest else none
    | [] => none
  | _ => some held

/-- Replays a trace against the stack of held locks: the locks held at the end, or `none` when
the trace violates the discipline. -/
def check_discipline : List Lock → List Event → Option (List Lock)
  | held, [] => some held
  | held, e :: rest =>
    match discipline_step held e with
    | some held1 => check_discipline held1 rest
    | none => none

/-- A transformer of the device that leaves the given field as it is. -/
def keeps {α : Type} (field : kbase_device → α) (f : kbase_device → kbase_device) : Prop :=
  ∀ d : kbase_device, field (f d) = field d

/-- The collaborators, and the other threads during the drain wait, leave the given field of
the device as it is. -/
structure Collaborators.keep {α : Type} (env : Collaborators) (field : kbase_device → α) :
    Prop where
  js_suspend : keeps field env.kbasep_js_suspend
  vinstr_suspend : keeps field env.kbase_vinstr_suspend
  hwcnt_disable : ∀ cb, env.hwcnt_disable_cb = some cb → keeps field cb
  concurrent : ∀ k : Nat, keeps field (env.concurrent k)
  hw_suspend : keeps field env.kbase_hwaccess_pm_suspend
  hw_resume : keeps field env.kbase_hwaccess_pm_resume
  vinstr_resume : keeps field env.kbase_vinstr_resume
  hwcnt_enable : ∀ cb, env.hwcnt_enable_cb = some cb → keeps field cb
  soft_jobs : keeps field env.kbase_resume_suspended_soft_jobs
  js_resume : keeps field env.kbasep_js_resume

/-- The events of the instrumentation step of `kbase_pm_resume`: `kbase_vinstr_resume`, or under
`CONFIG_MALI_SEC_HWCNT` the vendor callback, when there is one, under `hwcnt.mlock`. -/
def instrumentation_resume_events (cfg : Config) (env : Collaborators) : List Event :=
  if cfg.CONFIG_MALI_SEC_HWCNT then
    match env.hwcnt_enable_cb with
    | some _ => [Event.lock Lock.hwcnt_mlock, Event.hwcnt_enable, Event.unlock Lock.hwcnt_mlock]
    | none => [Event.lock Lock.hwcnt_mlock, Event.unlock Lock.hwcnt_mlock]
  else [Event.vinstr_resume]

/-- What the instrumentation step of `kbase_pm_suspend` does to the device:
`kbase_vinstr_suspend`, or under `CONFIG_MALI_SEC_HWCNT` the vendor callback when there is one. -/
def instrumentation_suspend (cfg : Config) (env : Collaborators) (d : kbase_device) :
    kbase_device :=
  if cfg.CONFIG_MALI_SEC_HWCNT then
    match env.hwcnt_disable_cb with
    | some cb => cb d
    | none => d
  else env.kbase_vinstr_suspend d

/-- What the instrumentation step of `kbase_pm_resume` does to the device:
`kbase_vinstr_resume`, or under `CONFIG_MALI_SEC_HWCNT` the vendor callback when there is one. -/
def instrumentation_resume (cfg : Config) (env : Collaborators) (d : kbase_device) :
    kbase_device :=
  if cfg.CONFIG_MALI_SEC_HWCNT then
    match env.hwcnt_enable_cb with
    | some cb => cb d
    | none => d
  else env.kbase_vinstr_resume d

/-- The events that only `kbase_pm_suspend`, `kbase_pm_resume`, `kbase_pm_powerup` and
`kbase_pm_halt` perform themselves: calls to the collaborators, the store to the suspend flag,
the drain wait and `hwcnt.mlock`. -/
def Event.is_orchestrator : Event → Bool
  | .store_suspending _ => true
  | .wait_event_condition _ => true
  | .schedule => true
  | .js_suspend => true
  | .js_resume => true
  | .vinstr_suspend => true
  | .vinstr_resume => true
  | .hwcnt_disable => true
  | .hwcnt_enable => true
  | .resume_suspended_soft_jobs => true
  | .hwaccess_pm_suspend => true
  | .hwaccess_pm_resume => true
  | .hwaccess_pm_powerup _ => true
  | .hwaccess_pm_halt => true
  | .lock Lock.hwcnt_mlock => true
  | .unlock Lock.hwcnt_mlock => true
  | _ => false

/-- The device on which `kbase_pm_resume` makes its matching `kbase_pm_context_idle` call. -/
def resume_idle_device (cfg : Config) (env : Collaborators) (kbdev : kbase_device) :
    kbase_device :=
  env.kbasep_js_resume
    (env.kbase_resume_suspended_soft_jobs
      (instrumentation_resume cfg env
        (kbase_pm_context_active cfg (env.kbase_hwaccess_pm_resume kbdev)).1))

/-- The collaborators called by `kbase_pm_suspend` and `kbase_pm_resume` (scheduler,
instrumentation, soft jobs, hardware layer) leave the given field of the device as it is;
nothing is assumed of what other threads do during the drain wait. -/
structure Collaborators.calls_keep {α : Type} (env : Collaborators)
    (field : kbase_device → α) : Prop where
  js_suspend : keeps field env.kbasep_js_suspend
  vinstr_suspend : keeps field env.kbase_vinstr_suspend
  hwcnt_disable : ∀ cb, env.hwcnt_disable_cb = some cb → keeps field cb
  hw_suspend : keeps field env.kbase_hwaccess_pm_suspend
  hw_resume : keeps field env.kbase_hwaccess_pm_resume
  vinstr_resume : keeps field env.kbase_vinstr_resume
  hwcnt_enable : ∀ cb, env.hwcnt_enable_cb = some cb → keeps field cb
  soft_jobs : keeps field env.kbase_resume_suspended_soft_jobs
  js_resume : keeps field env.kbasep_js_resume

/-- The device on which `kbase_pm_resume` calls `kbasep_js_resume`. -/
def resume_js_device (cfg : Config) (env : Collaborators) (kbdev : kbase_device) :
    kbase_device :=
  env.kbase_resume_suspended_soft_jobs
    (instrumentation_resume cfg env
      (kbase_pm_context_active cfg (env.kbase_hwaccess_pm_resume kbdev)).1)

/-- Collaborators as in `env_draining`, with a hardware resume that clears the suspend flag. -/
def env_reopening : Collaborators :=
  { env_draining with kbase_hwaccess_pm_resume := fun d => { d with suspending := false } }

/-- Collaborators as in `env_reopening`, with a scheduler that, when resumed, takes a lease with
`KBASE_PM_SUSPEND_HANDLER_DONT_INCREASE`. -/
def env_rescheduling : Collaborators :=
  { env_reopening with
    kbasep_js_resume := fun d =>
      (kbase_pm_context_active_handle_suspend cfg_plain d
        kbase_pm_suspend_handler.KBASE_PM_SUSPEND_HANDLER_DONT_INCREASE).2.1 }

/-! ## Basic facts about single calls -/

/-- Effect of an acquire on the device: either `0` is returned and the count went up by one,
or `1` is returned, the device is untouched and a suspend is in progress. -/
theorem active_handle_suspend_effect (cfg : Config) (d : kbase_device)
    (h : kbase_pm_suspend_handler) :
    ((kbase_pm_context_active_handle_suspend cfg d h).1 = 0 ∧
        (kbase_pm_context_active_handle_suspend cfg d h).2.1.active_count = d.active_count + 1)
      ∨ ((kbase_pm_context_active_handle_suspend cfg d h).1 = 1 ∧
        (kbase_pm_context_active_handle_suspend cfg d h).2.1 = d ∧
        d.suspending = true) := by
  unfold kbase_pm_context_active_handle_suspend kbase_pm_is_suspending
  cases h <;> cases hs : d.suspending <;> cases hc : cfg.CONFIG_MALI_SEC_UTILIZATION <;>
    by_cases h0 : d.active_count = 0 <;> simp [h0, hs, hc]

/-- An acquire never writes the suspend flag nor the power flag. -/
theorem active_handle_suspend_flags (cfg : Config) (d : kbase_device)
    (h : kbase_pm_suspend_handler) :
    (kbase_pm_context_active_handle_suspend cfg d h).2.1.suspending = d.suspending ∧
      (kbase_pm_context_active_handle_suspend cfg d h).2.1.gpu_powered = d.gpu_powered := by
  unfold kbase_pm_context_active_handle_suspend kbase_pm_is_suspending
  cases h <;> cases hs : d.suspending <;> cases hc : cfg.CONFIG_MALI_SEC_UTILIZATION <;>
    by_cases h0 : d.active_count = 0 <;> simp [h0, hs, hc]

/-- With no suspend in progress an acquire is accepted, whatever the policy. -/
theorem active_handle_suspend_not_suspending (cfg : Config) (d : kbase_device)
    (h : kbase_pm_suspend_handler) (hs : d.suspending = false) :
    (kbase_pm_context_active_handle_suspend cfg d h).1 = 0 ∧
      (kbase_pm_context_active_handle_suspend cfg d h).2.1.active_count = d.active_count + 1 := by
  rcases active_handle_suspend_effect cfg d h with hok | ⟨_, _, hsus⟩
  · exact hok
  · rw [hs] at hsus; exact absurd hsus (by decide)

/-- Number of "became active" notifications of one acquire, in terms of the count before. -/
theorem active_handle_suspend_gpu_active (cfg : Config) (d : kbase_device)
    (h : kbase_pm_suspend_handler) :
    (kbase_pm_context_active_handle_suspend cfg d h).2.2.count Event.hwaccess_pm_gpu_active
      = if (kbase_pm_context_active_handle_suspend cfg d h).1 = 0 ∧ d.active_count = 0
        then 1 else 0 := by
  unfold kbase_pm_context_active_handle_suspend sec_utilization_events kbase_pm_is_suspending
  cases h <;> cases hs : d.suspending <;> cases hc : cfg.CONFIG_MALI_SEC_UTILIZATION <;>
    by_cases h0 : d.active_count = 0 <;> simp [h0, hs, hc]

/-- An acquire emits no "became idle" notification. -/
theorem active_handle_suspend_no_idle (cfg : Config) (d : kbase_device)
    (h : kbase_pm_suspend_handler) :
    (kbase_pm_context_active_handle_suspend cfg d h).2.2.count Event.hwaccess_pm_gpu_idle = 0 := by
  unfold kbase_pm_context_active_handle_suspend sec_utilization_events kbase_pm_is_suspending
  cases h <;> cases hs : d.suspending <;> cases hc : cfg.CONFIG_MALI_SEC_UTILIZATION <;>
    by_cases h0 : d.active_count = 0 <;> simp [h0, hs, hc]

/-- An acquire emits no wake-up of the zero-count wait queue. -/
theorem active_handle_suspend_no_wake_up (cfg : Config) (d : kbase_device)
    (h : kbase_pm_suspend_handler) :
    (kbase_pm_context_active_handle_suspend cfg d h).2.2.count
      Event.wake_up_zero_active_count_wait = 0 := by
  unfold kbase_pm_context_active_handle_suspend sec_utilization_events kbase_pm_is_suspending
  cases h <;> cases hs : d.suspending <;> cases hc : cfg.CONFIG_MALI_SEC_UTILIZATION <;>
    by_cases h0 : d.active_count = 0 <;> simp [h0, hs, hc]

/-- Effect of a release on the device. -/
theorem context_idle_effect (cfg : Config) (d : kbase_device) :
    (kbase_pm_context_idle cfg d).1.active_count = d.active_count - 1 ∧
      (kbase_pm_context_idle cfg d).1.suspending = d.suspending ∧
      (kbase_pm_context_idle cfg d).1.gpu_powered = d.gpu_powered := by
  unfold kbase_pm_context_idle
  cases hc : cfg.CONFIG_MALI_SEC_UTILIZATION <;>
    by_cases h1 : d.active_count - 1 = 0 <;> simp [h1, hc]

/-- Number of "became idle" notifications and of wake-ups of one release. -/
theorem context_idle_gpu_idle (cfg : Config) (d : kbase_device) :
    (kbase_pm_context_idle cfg d).2.count Event.hwaccess_pm_gpu_idle
        = (if d.active_count = 1 then 1 else 0) ∧
      (kbase_pm_context_idle cfg d).2.count Event.wake_up_zero_active_count_wait
        = (if d.active_count = 1 then 1 else 0) := by
  have key : d.active_count - 1 = 0 ↔ d.active_count = 1 := by omega
  unfold kbase_pm_context_idle sec_utilization_events
  cases hc : cfg.CONFIG_MALI_SEC_UTILIZATION <;>
    by_cases h1 : d.active_count = 1 <;> by_cases h0 : d.active_count = 0 <;>
    by_cases hn : 0 ≤ d.active_count - 1 <;> simp [h1, h0, hc, key, hn]

/-- A release emits no "became active" notification. -/
theorem context_idle_no_active (cfg : Config) (d : kbase_device) :
    (kbase_pm_context_idle cfg d).2.count Event.hwaccess_pm_gpu_active = 0 := by
  have key : d.active_count - 1 = 0 ↔ d.active_count = 1 := by omega
  unfold kbase_pm_context_idle sec_utilization_events
  cases hc : cfg.CONFIG_MALI_SEC_UTILIZATION <;>
    by_cases h1 : d.active_count = 1 <;> by_cases h0 : d.active_count = 0 <;>
    by_cases hn : 0 ≤ d.active_count - 1 <;> simp [h1, h0, hc, key, hn]

/-! ## Facts about sequences -/

theorem run_calls_nil (cfg : Config) (d : kbase_device) : run_calls cfg d [] = (d, []) := rfl

theorem run_calls_cons (cfg : Config) (d : kbase_device) (c : PmCall) (rest : List PmCall) :
    run_calls cfg d (c :: rest)
      = ((run_calls cfg (c.exec cfg d).1 rest).1,
          (c.exec cfg d).2 ++ (run_calls cfg (c.exec cfg d).1 rest).2) := rfl

/-- Number of "became active" notifications of one call against the `0 -> 1` crossing. -/
theorem exec_gpu_active_crossing (cfg : Config) (d : kbase_device) (c : PmCall) :
    (c.exec cfg d).2.count Event.hwaccess_pm_gpu_active
      = if d.active_count = 0 ∧ (c.exec cfg d).1.active_count = 1 then 1 else 0 := by
  cases c with
  | acquire h =>
    simp only [PmCall.exec]
    rw [active_handle_suspend_gpu_active]
    rcases active_handle_suspend_effect cfg d h with ⟨hr, hc⟩ | ⟨hr, hd, _⟩
    · by_cases h0 : d.active_count = 0 <;> simp [hr, hc, h0]
    · by_cases h0 : d.active_count = 0 <;> simp [hr, hd, h0]
  | release =>
    have heff := (context_idle_effect cfg d).1
    simp only [PmCall.exec, context_idle_no_active, heff]
    by_cases h0 : d.active_count = 0 <;> simp [h0]

/-- Number of "became idle" notifications of one call against the `1 -> 0` crossing. -/
theorem exec_gpu_idle_crossing (cfg : Config) (d : kbase_device) (c : PmCall) :
    (c.exec cfg d).2.count Event.hwaccess_pm_gpu_idle
      = if d.active_count = 1 ∧ (c.exec cfg d).1.active_count = 0 then 1 else 0 := by
  cases c with
  | acquire h =>
    simp only [PmCall.exec, active_handle_suspend_no_idle]
    rcases active_handle_suspend_effect cfg d h with ⟨_, hc⟩ | ⟨_, hd, _⟩
    · by_cases h1 : d.active_count = 1 <;> simp [hc, h1]
    · by_cases h1 : d.active_count = 1 <;> simp [hd, h1]
  | release =>
    have heff := (context_idle_effect cfg d).1
    simp only [PmCall.exec, (context_idle_gpu_idle cfg d).1, heff]
    by_cases h1 : d.active_count = 1 <;> simp [h1]

/-- Notifications in the trace of a sequence against the crossings of the sequence. -/
theorem run_calls_notifications (cfg : Config) (calls : List PmCall) :
    ∀ d : kbase_device,
      (run_calls cfg d calls).2.count Event.hwaccess_pm_gpu_active = crossings cfg 0 1 d calls ∧
      (run_calls cfg d calls).2.count Event.hwaccess_pm_gpu_idle = crossings cfg 1 0 d calls := by
  induction calls with
  | nil => intro d; simp [run_calls_nil, crossings]
  | cons c rest ih =>
    intro d
    rw [run_calls_cons]
    simp only [List.count_append, crossings]
    rw [(ih (c.exec cfg d).1).1, (ih (c.exec cfg d).1).2, exec_gpu_active_crossing,
      exec_gpu_idle_crossing]
    exact ⟨rfl, rfl⟩

/-- Counting over a sequence that starts with a non-negative count and no suspend in progress. -/
theorem run_calls_counting (cfg : Config) (calls : List PmCall) :
    ∀ d : kbase_device, 0 ≤ d.active_count → d.suspending = false →
      releases_hold_lease cfg d calls = true →
      (run_calls cfg d calls).1.active_count
          = d.active_count + (num_acquires calls : Int) - (num_releases calls : Int) ∧
        ∀ k : Nat, 0 ≤ (run_calls cfg d (calls.take k)).1.active_count ∧
          (run_calls cfg d (calls.take k)).1.suspending = false := by
  induction calls with
  | nil => intro d h0 hs _; simp [run_calls_nil, num_acquires, num_releases, h0, hs]
  | cons c rest ih =>
    intro d h0 hs hr
    cases c with
    | acquire h =>
      have hacc := active_handle_suspend_not_suspending cfg d h hs
      have hfl := active_handle_suspend_flags cfg d h
      simp only [releases_hold_lease, PmCall.exec] at hr
      have hrec := ih (kbase_pm_context_active_handle_suspend cfg d h).2.1
        (by rw [hacc.2]; omega) (by rw [hfl.1]; exact hs) hr
      constructor
      · rw [run_calls_cons]
        simp only [PmCall.exec, num_acquires, num_releases]
        rw [hrec.1, hacc.2]; push_cast; ring
      · intro k
        cases k with
        | zero => simpa [run_calls_nil] using And.intro h0 hs
        | succ k => rw [List.take_succ_cons, run_calls_cons]; exact hrec.2 k
    | release =>
      have heff := context_idle_effect cfg d
      simp only [releases_hold_lease, Bool.and_eq_true, decide_eq_true_eq] at hr
      have hrec := ih (kbase_pm_context_idle cfg d).1
        (by rw [heff.1]; omega) (by rw [heff.2.1]; exact hs) hr.2
      constructor
      · rw [run_calls_cons]
        simp only [PmCall.exec, num_acquires, num_releases]
        rw [hrec.1, heff.1]; push_cast; ring
      · intro k
        cases k with
        | zero => simpa [run_calls_nil] using And.intro h0 hs
        | succ k => rw [List.take_succ_cons, run_calls_cons]; exact hrec.2 k

/-- The try-acquire never writes the suspend flag nor the power flag. -/
theorem hold_noactivate_flags (d : kbase_device) (h : kbase_pm_suspend_handler) :
    (kbase_pm_context_hold_noactivate_handle_suspend d h).2.1.suspending = d.suspending ∧
      (kbase_pm_context_hold_noactivate_handle_suspend d h).2.1.gpu_powered = d.gpu_powered := by
  unfold kbase_pm_context_hold_noactivate_handle_suspend kbase_pm_is_suspending
  cases h <;> cases hs : d.suspending <;> cases hp : d.gpu_powered <;> simp [hs, hp]

/-- No lease operation stores to the suspend flag. -/
theorem exec_no_store_suspending (cfg : Config) (d : kbase_device) (op : LeaseOp) (v : Bool) :
    Event.store_suspending v ∉ (op.exec cfg d).2 := by
  cases op with
  | acquire h =>
    simp only [LeaseOp.exec]
    unfold kbase_pm_context_active_handle_suspend sec_utilization_events kbase_pm_is_suspending
    cases h <;> cases hs : d.suspending <;> cases hc : cfg.CONFIG_MALI_SEC_UTILIZATION <;>
      by_cases h0 : d.active_count = 0 <;> simp [h0, hs, hc]
  | try_acquire h =>
    simp only [LeaseOp.exec]
    unfold kbase_pm_context_hold_noactivate_handle_suspend kbase_pm_is_suspending
      hold_lock_all hold_unlock_all
    cases h <;> cases hs : d.suspending <;> cases hp : d.gpu_powered <;>
      by_cases h0 : d.active_count + 1 = 1 <;> simp [h0, hs, hp]
  | release =>
    simp only [LeaseOp.exec]
    unfold kbase_pm_context_idle sec_utilization_events
    cases hc : cfg.CONFIG_MALI_SEC_UTILIZATION <;>
      by_cases h1 : d.active_count - 1 = 0 <;> by_cases h0 : d.active_count = 0 <;>
      by_cases hn : 0 ≤ d.active_count - 1 <;> simp [h1, h0, hc, hn]

/-- No lease operation changes the value of the suspend flag. -/
theorem exec_suspending (cfg : Config) (d : kbase_device) (op : LeaseOp) :
    (op.exec cfg d).1.suspending = d.suspending := by
  cases op with
  | acquire h => exact (active_handle_suspend_flags cfg d h).1
  | try_acquire h => exact (hold_noactivate_flags d h).1
  | release => exact (context_idle_effect cfg d).2.1

/-- Running a concatenation is running the first part and then the second. -/
theorem run_seq_append {α : Type} (exec : kbase_device → α → kbase_device × List Event)
    (l1 l2 : List α) :
    ∀ d : kbase_device,
      run_seq exec d (l1 ++ l2)
        = ((run_seq exec (run_seq exec d l1).1 l2).1,
            (run_seq exec d l1).2 ++ (run_seq exec (run_seq exec d l1).1 l2).2) := by
  induction l1 with
  | nil => intro d; simp [run_seq]
  | cons c rest ih => intro d; simp [run_seq, ih]

/-- A sequence of lease operations never changes the suspend flag and never stores to it. -/
theorem run_ops_suspending (cfg : Config) (ops : List LeaseOp) :
    ∀ d : kbase_device,
      (run_ops cfg d ops).1.suspending = d.suspending ∧
        ∀ v : Bool, Event.store_suspending v ∉ (run_ops cfg d ops).2 := by
  induction ops with
  | nil => intro d; simp [run_ops, run_seq]
  | cons op rest ih =>
    intro d
    have hrec := ih (op.exec cfg d).1
    simp only [run_ops] at hrec
    simp only [run_ops, run_seq, List.mem_append, not_or]
    exact ⟨by rw [hrec.1, exec_suspending], fun v => ⟨exec_no_store_suspending cfg d op v, hrec.2 v⟩⟩

/-- The entry part of `kbase_pm_suspend` stores `true` to the suspend flag. -/
theorem suspend_entry_stores (cfg : Config) (env : Collaborators) (d : kbase_device) :
    Event.store_suspending true ∈ (kbase_pm_suspend_entry cfg env d).2 := by
  unfold kbase_pm_suspend_entry
  cases hc : cfg.CONFIG_MALI_SEC_HWCNT <;> cases hcb : env.hwcnt_disable_cb <;> simp

/-- Shape of a run of `kbase_pm_suspend`: the entry part, then the drain wait, then the hardware
suspend when the wait has returned. -/
theorem suspend_run_shape (cfg : Config) (env : Collaborators) (fuel : Nat) (d : kbase_device) :
    (kbase_pm_suspend cfg env fuel d).returned
        = (wait_event_zero_active_count env fuel 0 (kbase_pm_suspend_entry cfg env d).1).returned
    ∧ (kbase_pm_suspend cfg env fuel d).trace
        = (kbase_pm_suspend_entry cfg env d).2
          ++ (wait_event_zero_active_count env fuel 0 (kbase_pm_suspend_entry cfg env d).1).trace
          ++ (if (wait_event_zero_active_count env fuel 0
                (kbase_pm_suspend_entry cfg env d).1).returned
              then [Event.hwaccess_pm_suspend] else []) := by
  unfold kbase_pm_suspend
  cases hw : (wait_event_zero_active_count env fuel 0
    (kbase_pm_suspend_entry cfg env d).1).returned <;> simp [hw]

/-- The entry part of `kbase_pm_suspend` does not call the hardware suspend. -/
theorem suspend_entry_no_hw_suspend (cfg : Config) (env : Collaborators) (d : kbase_device) :
    Event.hwaccess_pm_suspend ∉ (kbase_pm_suspend_entry cfg env d).2 := by
  unfold kbase_pm_suspend_entry kbase_pm_is_suspending
  cases hc : cfg.CONFIG_MALI_SEC_HWCNT <;> cases hcb : env.hwcnt_disable_cb <;>
    cases hs : d.suspending <;> simp

/-- The drain wait performs nothing but evaluations of its condition and sleeps. -/
theorem wait_event_alphabet (env : Collaborators) (fuel : Nat) :
    ∀ (k : Nat) (d : kbase_device),
      ∀ e ∈ (wait_event_zero_active_count env fuel k d).trace,
        e = Event.schedule ∨ ∃ n : Int, e = Event.wait_event_condition n := by
  induction fuel with
  | zero => intro k d e he; simp [wait_event_zero_active_count] at he
  | succ fuel ih =>
    intro k d e he
    unfold wait_event_zero_active_count at he
    by_cases h0 : d.active_count = 0
    · simp only [h0, if_true, List.mem_singleton] at he
      exact Or.inr ⟨0, he⟩
    · simp only [h0, if_false, List.mem_cons] at he
      rcases he with he | he | he
      · exact Or.inr ⟨_, he⟩
      · exact Or.inl he
      · exact ih _ _ e he

/-- When the drain wait returns, its last action is an evaluation of the condition that observed
`active_count == 0`, and the device it returns has no lease. -/
theorem wait_event_returned (env : Collaborators) (fuel : Nat) :
    ∀ (k : Nat) (d : kbase_device),
      (wait_event_zero_active_count env fuel k d).returned = true →
      (wait_event_zero_active_count env fuel k d).kbdev.active_count = 0 ∧
        ∃ pre : List Event,
          (wait_event_zero_active_count env fuel k d).trace
            = pre ++ [Event.wait_event_condition 0] := by
  induction fuel with
  | zero => intro k d hret; simp [wait_event_zero_active_count] at hret
  | succ fuel ih =>
    intro k d hret
    unfold wait_event_zero_active_count at hret ⊢
    by_cases h0 : d.active_count = 0
    · simp only [h0, if_true]
      exact ⟨trivial, [], rfl⟩
    · simp only [h0, if_false] at hret ⊢
      obtain ⟨hc, pre, hpre⟩ := ih _ _ hret
      exact ⟨hc, Event.wait_event_condition d.active_count :: Event.schedule :: pre, by
        rw [hpre]; rfl⟩

/-- While no evaluation of the condition finds `active_count == 0`, the drain wait stays
blocked. -/
theorem wait_event_blocked (env : Collaborators) (fuel : Nat) :
    ∀ (k : Nat) (d : kbase_device),
      (∀ j : Nat, (drain_from env k d j).active_count ≠ 0) →
      (wait_event_zero_active_count env fuel k d).returned = false := by
  induction fuel with
  | zero => intro k d _; simp [wait_event_zero_active_count]
  | succ fuel ih =>
    intro k d hne
    unfold wait_event_zero_active_count
    have h0 : d.active_count ≠ 0 := hne 0
    simp only [h0, if_false]
    exact ih _ _ (fun j => hne (j + 1))

/-- When the evaluation number `j` of the condition finds `active_count == 0`, the drain wait
returns as soon as the fuel exceeds `j`. -/
theorem wait_event_returns (env : Collaborators) (fuel : Nat) :
    ∀ (k : Nat) (d : kbase_device) (j : Nat),
      (drain_from env k d j).active_count = 0 → j < fuel →
      (wait_event_zero_active_count env fuel k d).returned = true := by
  induction fuel with
  | zero => intro k d j _ hj; omega
  | succ fuel ih =>
    intro k d j hz hj
    unfold wait_event_zero_active_count
    by_cases h0 : d.active_count = 0
    · simp [h0]
    · simp only [h0, if_false]
      cases j with
      | zero => exact absurd hz h0
      | succ j => exact ih _ _ j hz (by omega)

/-! ## Further facts about single calls -/

/-- A rejected acquire makes no hardware call. -/
theorem active_handle_suspend_rejected_trace (cfg : Config) (d : kbase_device)
    (h : kbase_pm_suspend_handler)
    (hr : (kbase_pm_context_active_handle_suspend cfg d h).1 = 1) :
    ∀ e ∈ (kbase_pm_context_active_handle_suspend cfg d h).2.2, e.is_hw_call = false := by
  revert hr
  unfold kbase_pm_context_active_handle_suspend sec_utilization_events kbase_pm_is_suspending
  cases h <;> cases hs : d.suspending <;> cases hc : cfg.CONFIG_MALI_SEC_UTILIZATION <;>
    by_cases h0 : d.active_count = 0 <;> simp [h0, hs, hc, Event.is_hw_call]

/-- Number of `GPU_ACTIVE` timeline "send" events of one acquire. -/
theorem active_handle_suspend_timeline_send (cfg : Config) (d : kbase_device)
    (h : kbase_pm_suspend_handler) :
    (kbase_pm_context_active_handle_suspend cfg d h).2.2.count
        (Event.timeline_pm_send_event TimelineEvent.KBASE_TIMELINE_PM_EVENT_GPU_ACTIVE)
      = (if d.active_count = 0 then 1 else 0) := by
  unfold kbase_pm_context_active_handle_suspend sec_utilization_events kbase_pm_is_suspending
  cases h <;> cases hs : d.suspending <;> cases hc : cfg.CONFIG_MALI_SEC_UTILIZATION <;>
    by_cases h0 : d.active_count = 0 <;> simp [h0, hs, hc]

/-- Number of `GPU_ACTIVE` timeline "handle" events of one acquire. -/
theorem active_handle_suspend_timeline_handle (cfg : Config) (d : kbase_device)
    (h : kbase_pm_suspend_handler) :
    (kbase_pm_context_active_handle_suspend cfg d h).2.2.count
        (Event.timeline_pm_handle_event TimelineEvent.KBASE_TIMELINE_PM_EVENT_GPU_ACTIVE)
      = (if d.active_count = 0 then 1 else 0) := by
  unfold kbase_pm_context_active_handle_suspend sec_utilization_events kbase_pm_is_suspending
  cases h <;> cases hs : d.suspending <;> cases hc : cfg.CONFIG_MALI_SEC_UTILIZATION <;>
    by_cases h0 : d.active_count = 0 <;> simp [h0, hs, hc]

/-- Number of `GPU_IDLE` timeline "send" events of one release. -/
theorem context_idle_timeline_send (cfg : Config) (d : kbase_device) :
    (kbase_pm_context_idle cfg d).2.count
        (Event.timeline_pm_send_event TimelineEvent.KBASE_TIMELINE_PM_EVENT_GPU_IDLE)
      = (if d.active_count = 0 then 1 else 0) := by
  unfold kbase_pm_context_idle sec_utilization_events
  cases hc : cfg.CONFIG_MALI_SEC_UTILIZATION <;>
    by_cases h0 : d.active_count = 0 <;>
    by_cases h1 : d.active_count - 1 = 0 <;>
    by_cases hn : 0 ≤ d.active_count - 1 <;> simp [h1, h0, hc, hn]

/-- Number of `GPU_IDLE` timeline "handle" events of one release. -/
theorem context_idle_timeline_handle (cfg : Config) (d : kbase_device) :
    (kbase_pm_context_idle cfg d).2.count
        (Event.timeline_pm_handle_event TimelineEvent.KBASE_TIMELINE_PM_EVENT_GPU_IDLE)
      = (if d.active_count = 0 then 1 else 0) := by
  unfold kbase_pm_context_idle sec_utilization_events
  cases hc : cfg.CONFIG_MALI_SEC_UTILIZATION <;>
    by_cases h0 : d.active_count = 0 <;>
    by_cases h1 : d.active_count - 1 = 0 <;>
    by_cases hn : 0 ≤ d.active_count - 1 <;> simp [h1, h0, hc, hn]

/-- A release made with a lease outstanding emits no timeline event. -/
theorem context_idle_no_timeline (cfg : Config) (d : kbase_device) (hpos : 0 < d.active_count) :
    ∀ e ∈ (kbase_pm_context_idle cfg d).2, e.is_timeline_pm = false := by
  have h0 : d.active_count ≠ 0 := by omega
  unfold kbase_pm_context_idle sec_utilization_events
  cases hc : cfg.CONFIG_MALI_SEC_UTILIZATION <;>
    by_cases h1 : d.active_count - 1 = 0 <;>
    by_cases hn : 0 ≤ d.active_count - 1 <;>
    simp [h1, h0, hc, hn, Event.is_timeline_pm]

/-- An acquire performs none of the orchestrator events. -/
theorem active_handle_suspend_no_orchestrator (cfg : Config) (d : kbase_device)
    (h : kbase_pm_suspend_handler) :
    ∀ e ∈ (kbase_pm_context_active_handle_suspend cfg d h).2.2, e.is_orchestrator = false := by
  unfold kbase_pm_context_active_handle_suspend sec_utilization_events kbase_pm_is_suspending
  cases h <;> cases hs : d.suspending <;> cases hc : cfg.CONFIG_MALI_SEC_UTILIZATION <;>
    by_cases h0 : d.active_count = 0 <;> simp [h0, hs, hc, Event.is_orchestrator]

/-- A release performs none of the orchestrator events. -/
theorem context_idle_no_orchestrator (cfg : Config) (d : kbase_device) :
    ∀ e ∈ (kbase_pm_context_idle cfg d).2, e.is_orchestrator = false := by
  unfold kbase_pm_context_idle sec_utilization_events
  cases hc : cfg.CONFIG_MALI_SEC_UTILIZATION <;>
    by_cases h0 : d.active_count = 0 <;>
    by_cases h1 : d.active_count - 1 = 0 <;>
    by_cases hn : 0 ≤ d.active_count - 1 <;> simp [h1, h0, hc, hn, Event.is_orchestrator]

/-- A granted acquire records one `PM_CONTEXT_ACTIVE` reference count, a rejected one none. -/
theorem active_handle_suspend_refcount (cfg : Config) (d : kbase_device)
    (h : kbase_pm_suspend_handler) :
    (kbase_pm_context_active_handle_suspend cfg d h).2.2.countP
        (Event.is_refcount TraceCode.PM_CONTEXT_ACTIVE)
      = (if (kbase_pm_context_active_handle_suspend cfg d h).1 = 0 then 1 else 0) := by
  unfold kbase_pm_context_active_handle_suspend sec_utilization_events kbase_pm_is_suspending
  cases h <;> cases hs : d.suspending <;> cases hc : cfg.CONFIG_MALI_SEC_UTILIZATION <;>
    by_cases h0 : d.active_count = 0 <;> simp [h0, hs, hc, Event.is_refcount]

/-- An acquire records no `PM_CONTEXT_IDLE` reference count. -/
theorem active_handle_suspend_refcount_idle (cfg : Config) (d : kbase_device)
    (h : kbase_pm_suspend_handler) :
    (kbase_pm_context_active_handle_suspend cfg d h).2.2.countP
        (Event.is_refcount TraceCode.PM_CONTEXT_IDLE) = 0 := by
  unfold kbase_pm_context_active_handle_suspend sec_utilization_events kbase_pm_is_suspending
  cases h <;> cases hs : d.suspending <;> cases hc : cfg.CONFIG_MALI_SEC_UTILIZATION <;>
    by_cases h0 : d.active_count = 0 <;> simp [h0, hs, hc, Event.is_refcount]

/-- A release records one `PM_CONTEXT_IDLE` reference count and no `PM_CONTEXT_ACTIVE` one. -/
theorem context_idle_refcount (cfg : Config) (d : kbase_device) :
    (kbase_pm_context_idle cfg d).2.countP (Event.is_refcount TraceCode.PM_CONTEXT_IDLE) = 1
    ∧ (kbase_pm_context_idle cfg d).2.countP (Event.is_refcount TraceCode.PM_CONTEXT_ACTIVE)
        = 0 := by
  unfold kbase_pm_context_idle sec_utilization_events
  cases hc : cfg.CONFIG_MALI_SEC_UTILIZATION <;>
    by_cases h0 : d.active_count = 0 <;>
    by_cases h1 : d.active_count - 1 = 0 <;>
    by_cases hn : 0 ≤ d.active_count - 1 <;> simp [h1, h0, hc, hn, Event.is_refcount]

/-- The internal acquire of `kbase_pm_resume` is granted: `kbase_pm_context_active` raises the
count by one, keeps the flags and records one `PM_CONTEXT_ACTIVE` reference count. -/
theorem context_active_effect (cfg : Config) (d : kbase_device) :
    (kbase_pm_context_active cfg d).1.active_count = d.active_count + 1
    ∧ (kbase_pm_context_active cfg d).1.suspending = d.suspending
    ∧ (kbase_pm_context_active cfg d).1.gpu_powered = d.gpu_powered
    ∧ (kbase_pm_context_active cfg d).2.countP (Event.is_refcount TraceCode.PM_CONTEXT_ACTIVE) = 1
    ∧ (kbase_pm_context_active cfg d).2.countP (Event.is_refcount TraceCode.PM_CONTEXT_IDLE) = 0
    ∧ ∀ e ∈ (kbase_pm_context_active cfg d).2, e.is_orchestrator = false := by
  have hret : (kbase_pm_context_active_handle_suspend cfg d
      kbase_pm_suspend_handler.KBASE_PM_SUSPEND_HANDLER_NOT_POSSIBLE).1 = 0 := by
    unfold kbase_pm_context_active_handle_suspend kbase_pm_is_suspending
    cases hs : d.suspending <;> by_cases h0 : d.active_count = 0 <;> simp [h0, hs]
  have hcount : (kbase_pm_context_active_handle_suspend cfg d
      kbase_pm_suspend_handler.KBASE_PM_SUSPEND_HANDLER_NOT_POSSIBLE).2.1.active_count
        = d.active_count + 1 := by
    rcases active_handle_suspend_effect cfg d
      kbase_pm_suspend_handler.KBASE_PM_SUSPEND_HANDLER_NOT_POSSIBLE with ⟨_, hc⟩ | ⟨hr, _, _⟩
    · exact hc
    · rw [hret] at hr; exact absurd hr (by decide)
  have hfl := active_handle_suspend_flags cfg d
    kbase_pm_suspend_handler.KBASE_PM_SUSPEND_HANDLER_NOT_POSSIBLE
  have hrc := active_handle_suspend_refcount cfg d
    kbase_pm_suspend_handler.KBASE_PM_SUSPEND_HANDLER_NOT_POSSIBLE
  rw [hret] at hrc
  exact ⟨hcount, hfl.1, hfl.2, hrc, active_handle_suspend_refcount_idle cfg d _,
    active_handle_suspend_no_orchestrator cfg d _⟩

/-- The trace of `kbase_pm_resume`, segment by segment, and the device it returns. -/
theorem resume_shape (cfg : Config) (env : Collaborators) (kbdev : kbase_device) :
    (kbase_pm_resume cfg env kbdev).2
        = Event.hwaccess_pm_resume
          :: ((kbase_pm_context_active cfg (env.kbase_hwaccess_pm_resume kbdev)).2
            ++ instrumentation_resume_events cfg env
            ++ [Event.resume_suspended_soft_jobs, Event.js_resume]
            ++ (kbase_pm_context_idle cfg (resume_idle_device cfg env kbdev)).2)
    ∧ (kbase_pm_resume cfg env kbdev).1
        = (kbase_pm_context_idle cfg (resume_idle_device cfg env kbdev)).1 := by
  unfold kbase_pm_resume resume_idle_device instrumentation_resume instrumentation_resume_events
  cases hc : cfg.CONFIG_MALI_SEC_HWCNT <;> cases hcb : env.hwcnt_enable_cb <;> simp

/-! ## Facts about suspend, resume and the locks -/

/-- In the trace of `kbase_pm_resume` the hardware resume, the granted acquire, the soft-job
resume, the scheduler resume and the release are recorded once each, and the instrumentation
step holds nothing but its own events. -/
theorem resume_markers (cfg : Config) (env : Collaborators) (kbdev : kbase_device) :
    ((kbase_pm_resume cfg env kbdev).2.count Event.hwaccess_pm_resume = 1
      ∧ (kbase_pm_resume cfg env kbdev).2.countP (Event.is_refcount TraceCode.PM_CONTEXT_ACTIVE) = 1
      ∧ (kbase_pm_resume cfg env kbdev).2.count Event.resume_suspended_soft_jobs = 1
      ∧ (kbase_pm_resume cfg env kbdev).2.count Event.js_resume = 1
      ∧ (kbase_pm_resume cfg env kbdev).2.countP (Event.is_refcount TraceCode.PM_CONTEXT_IDLE) = 1)
    ∧ (∀ e ∈ instrumentation_resume_events cfg env,
        e = Event.vinstr_resume ∨ e = Event.hwcnt_enable ∨ e = Event.lock Lock.hwcnt_mlock
          ∨ e = Event.unlock Lock.hwcnt_mlock) := by
  have hshape := (resume_shape cfg env kbdev).1
  have hact := context_active_effect cfg (env.kbase_hwaccess_pm_resume kbdev)
  have hidle := context_idle_refcount cfg (resume_idle_device cfg env kbdev)
  have hio := context_idle_no_orchestrator cfg (resume_idle_device cfg env kbdev)
  have hinstr : ∀ e ∈ instrumentation_resume_events cfg env,
      e = Event.vinstr_resume ∨ e = Event.hwcnt_enable ∨ e = Event.lock Lock.hwcnt_mlock
        ∨ e = Event.unlock Lock.hwcnt_mlock := by
    unfold instrumentation_resume_events
    cases hc : cfg.CONFIG_MALI_SEC_HWCNT <;> cases hcb : env.hwcnt_enable_cb <;> simp
  have hnot : ∀ (l : List Event) (a : Event), a.is_orchestrator = true →
      (∀ e ∈ l, e.is_orchestrator = false) → l.count a = 0 := by
    intro l a ha hl
    rw [List.count_eq_zero]
    intro hmem
    rw [hl a hmem] at ha
    exact absurd ha (by decide)
  have hinstr_count : ∀ a : Event,
      a = Event.hwaccess_pm_resume ∨ a = Event.resume_suspended_soft_jobs ∨ a = Event.js_resume →
      (instrumentation_resume_events cfg env).count a = 0 := by
    intro a ha
    rw [List.count_eq_zero]
    intro hmem
    rcases hinstr a hmem with h | h | h | h <;> rcases ha with ha | ha | ha <;>
      rw [h] at ha <;> cases ha
  have hinstr_rc : ∀ code : TraceCode,
      (instrumentation_resume_events cfg env).countP (Event.is_refcount code) = 0 := by
    intro code
    rw [List.countP_eq_zero]
    intro e hmem
    rcases hinstr e hmem with h | h | h | h <;> rw [h] <;> simp [Event.is_refcount]
  have ha := hact.2.2.2.2.2
  have a1 := hnot _ Event.hwaccess_pm_resume rfl ha
  have a2 := hnot _ Event.resume_suspended_soft_jobs rfl ha
  have a3 := hnot _ Event.js_resume rfl ha
  have r1 := hnot _ Event.hwaccess_pm_resume rfl hio
  have r2 := hnot _ Event.resume_suspended_soft_jobs rfl hio
  have r3 := hnot _ Event.js_resume rfl hio
  have i1 := hinstr_count Event.hwaccess_pm_resume (Or.inl rfl)
  have i2 := hinstr_count Event.resume_suspended_soft_jobs (Or.inr (Or.inl rfl))
  have i3 := hinstr_count Event.js_resume (Or.inr (Or.inr rfl))
  refine ⟨⟨?_, ?_, ?_, ?_, ?_⟩, hinstr⟩
  · rw [hshape]
    simp [List.count_cons, a1, r1, i1]
  · rw [hshape]
    simp [List.countP_cons, hact.2.2.2.1, hidle.2, hinstr_rc, Event.is_refcount]
  · rw [hshape]
    simp [List.count_cons, a2, r2, i2]
  · rw [hshape]
    simp [List.count_cons, a3, r3, i3]
  · rw [hshape]
    simp [List.countP_cons, hact.2.2.2.2.1, hidle.1, hinstr_rc, Event.is_refcount]

/-- With collaborators that keep a field, the drain wait returns a device with the field it was
given. -/
theorem wait_event_keeps {α : Type} (env : Collaborators) (field : kbase_device → α)
    (henv : env.keep field) (fuel : Nat) :
    ∀ (k : Nat) (d : kbase_device),
      field (wait_event_zero_active_count env fuel k d).kbdev = field d := by
  induction fuel with
  | zero => intro k d; simp [wait_event_zero_active_count]
  | succ fuel ih =>
    intro k d
    unfold wait_event_zero_active_count
    by_cases h0 : d.active_count = 0
    · simp [h0]
    · simp only [h0, if_false]
      exact (ih (k + 1) (env.concurrent k d)).trans (henv.concurrent k d)

/-- With collaborators that keep a field which is not the suspend flag, the entry part of
`kbase_pm_suspend` keeps it. -/
theorem suspend_entry_keeps {α : Type} (cfg : Config) (env : Collaborators)
    (field : kbase_device → α) (henv : env.keep field)
    (hflag : ∀ d : kbase_device, field { d with suspending := true } = field d)
    (d : kbase_device) :
    field (kbase_pm_suspend_entry cfg env d).1 = field d := by
  have hjs := (henv.js_suspend { d with suspending := true }).trans (hflag d)
  unfold kbase_pm_suspend_entry
  cases hc : cfg.CONFIG_MALI_SEC_HWCNT
  · simp only [Bool.false_eq_true, if_false]
    exact (henv.vinstr_suspend _).trans hjs
  · cases hcb : env.hwcnt_disable_cb with
    | none => simpa using hjs
    | some cb =>
      simp only [if_true]
      exact (henv.hwcnt_disable cb hcb _).trans hjs

/-- With collaborators that keep a field which is not the suspend flag, `kbase_pm_suspend` keeps
it, blocked or returned. -/
theorem suspend_keeps {α : Type} (cfg : Config) (env : Collaborators)
    (field : kbase_device → α) (henv : env.keep field)
    (hflag : ∀ d : kbase_device, field { d with suspending := true } = field d)
    (fuel : Nat) (d : kbase_device) :
    field (kbase_pm_suspend cfg env fuel d).kbdev = field d := by
  have he := suspend_entry_keeps cfg env field henv hflag d
  have hw := wait_event_keeps env field henv fuel 0 (kbase_pm_suspend_entry cfg env d).1
  unfold kbase_pm_suspend
  cases hr : (wait_event_zero_active_count env fuel 0
      (kbase_pm_suspend_entry cfg env d).1).returned
  · simp only [hr, Bool.false_eq_true, if_false]
    exact hw.trans he
  · simp only [hr, if_true]
    exact (henv.hw_suspend _).trans (hw.trans he)


/-- The "unreachable" assertion of an acquire fails only while a suspend is in progress. -/
theorem active_handle_suspend_unreachable (cfg : Config) (d : kbase_device)
    (h : kbase_pm_suspend_handler) (hs : d.suspending = false) :
    Event.debug_assert_fail Assertion.unreachable ∉
      (kbase_pm_context_active_handle_suspend cfg d h).2.2 := by
  unfold kbase_pm_context_active_handle_suspend sec_utilization_events kbase_pm_is_suspending
  cases hc : cfg.CONFIG_MALI_SEC_UTILIZATION <;>
    by_cases h0 : d.active_count = 0 <;> simp [h0, hs, hc]

/-- A release never fails the "unreachable" assertion. -/
theorem context_idle_no_unreachable (cfg : Config) (d : kbase_device) :
    Event.debug_assert_fail Assertion.unreachable ∉ (kbase_pm_context_idle cfg d).2 := by
  unfold kbase_pm_context_idle sec_utilization_events
  cases hc : cfg.CONFIG_MALI_SEC_UTILIZATION <;>
    by_cases h0 : d.active_count = 0 <;>
    by_cases h1 : d.active_count - 1 = 0 <;>
    by_cases hn : 0 ≤ d.active_count - 1 <;> simp [h1, h0, hc, hn]

/-- The collaborators of `env_stuck` keep every field. -/
theorem env_stuck_keep {α : Type} (field : kbase_device → α) : env_stuck.keep field := by
  constructor <;> first
    | (intro d; rfl)
    | (intro k d; rfl)
    | (intro cb hcb; simp [env_stuck, env_draining] at hcb)

/-- The events of the entry part of `kbase_pm_suspend` and the device it hands to the drain
wait. -/
theorem suspend_entry_shape (cfg : Config) (env : Collaborators) (d : kbase_device) :
    (∃ rest : List Event,
        (kbase_pm_suspend_entry cfg env d).2
          = Event.lock Lock.pm_lock
            :: ((if d.suspending then [Event.debug_assert_fail Assertion.not_suspending] else [])
              ++ Event.store_suspending true :: Event.unlock Lock.pm_lock
                :: Event.js_suspend :: rest)
        ∧ ∀ e ∈ rest, e.is_debug_assert = false)
    ∧ (kbase_pm_suspend_entry cfg env d).1
        = instrumentation_suspend cfg env (env.kbasep_js_suspend { d with suspending := true }) := by
  unfold kbase_pm_suspend_entry instrumentation_suspend kbase_pm_is_suspending
  cases hc : cfg.CONFIG_MALI_SEC_HWCNT <;> cases hcb : env.hwcnt_disable_cb <;>
    cases hs : d.suspending <;> simp [Event.is_debug_assert]

/-- The replay refuses a lock taken against the hierarchy, a release out of order and the
second taking of a held lock. -/
theorem check_discipline_refuses :
    check_discipline [] [Event.lock Lock.pm_lock, Event.lock Lock.runpool_mutex] = none
    ∧ check_discipline []
        [Event.lock Lock.runpool_mutex, Event.lock Lock.pm_lock,
         Event.unlock Lock.runpool_mutex] = none
    ∧ check_discipline [] [Event.lock Lock.metrics_lock, Event.lock Lock.metrics_lock] = none
    ∧ check_discipline [] [Event.lock Lock.runpool_mutex]
        = some [Lock.runpool_mutex] := by
  decide

/-- Every path of the try-acquire keeps the lock discipline and takes hierarchy locks only. -/
theorem hold_noactivate_discipline (d : kbase_device) (h : kbase_pm_suspend_handler) :
    check_discipline [] (kbase_pm_context_hold_noactivate_handle_suspend d h).2.2 = some []
    ∧ ∀ l : Lock, Event.lock l ∈ (kbase_pm_context_hold_noactivate_handle_suspend d h).2.2 →
        (lock_rank l).isSome = true := by
  unfold kbase_pm_context_hold_noactivate_handle_suspend kbase_pm_is_suspending
    hold_lock_all hold_unlock_all
  cases h <;> cases hs : d.suspending <;> cases hp : d.gpu_powered <;>
    by_cases h0 : d.active_count + 1 = 1 <;>
    simp [h0, hs, hp, check_discipline, discipline_step, may_acquire, lock_rank]

/-- Every path of the acquire keeps the lock discipline. -/
theorem active_handle_suspend_discipline (cfg : Config) (d : kbase_device)
    (h : kbase_pm_suspend_handler) :
    check_discipline [] (kbase_pm_context_active_handle_suspend cfg d h).2.2 = some [] := by
  unfold kbase_pm_context_active_handle_suspend sec_utilization_events kbase_pm_is_suspending
  cases h <;> cases hs : d.suspending <;> cases hc : cfg.CONFIG_MALI_SEC_UTILIZATION <;>
    by_cases h0 : d.active_count = 0 <;>
    simp [h0, hs, hc, check_discipline, discipline_step, may_acquire, lock_rank]

/-- The locks taken by an acquire are hierarchy locks, or `metrics.lock` under
`CONFIG_MALI_SEC_UTILIZATION`. -/
theorem active_handle_suspend_locks (cfg : Config) (d : kbase_device)
    (h : kbase_pm_suspend_handler) :
    ∀ l : Lock, Event.lock l ∈ (kbase_pm_context_active_handle_suspend cfg d h).2.2 →
      (lock_rank l).isSome = true
        ∨ (l = Lock.metrics_lock ∧ cfg.CONFIG_MALI_SEC_UTILIZATION = true) := by
  unfold kbase_pm_context_active_handle_suspend sec_utilization_events kbase_pm_is_suspending
  cases h <;> cases hs : d.suspending <;> cases hc : cfg.CONFIG_MALI_SEC_UTILIZATION <;>
    by_cases h0 : d.active_count = 0 <;>
    simp [h0, hs, hc, lock_rank]

/-- Every path of the release keeps the lock discipline. -/
theorem context_idle_discipline (cfg : Config) (d : kbase_device) :
    check_discipline [] (kbase_pm_context_idle cfg d).2 = some [] := by
  unfold kbase_pm_context_idle sec_utilization_events
  cases hc : cfg.CONFIG_MALI_SEC_UTILIZATION <;>
    by_cases h0 : d.active_count = 0 <;>
    by_cases h1 : d.active_count - 1 = 0 <;>
    by_cases hn : 0 ≤ d.active_count - 1 <;>
    simp [h1, h0, hc, hn, check_discipline, discipline_step, may_acquire, lock_rank]

/-- The locks taken by a release are hierarchy locks, or `metrics.lock` under
`CONFIG_MALI_SEC_UTILIZATION`. -/
theorem context_idle_locks (cfg : Config) (d : kbase_device) :
    ∀ l : Lock, Event.lock l ∈ (kbase_pm_context_idle cfg d).2 →
      (lock_rank l).isSome = true
        ∨ (l = Lock.metrics_lock ∧ cfg.CONFIG_MALI_SEC_UTILIZATION = true) := by
  unfold kbase_pm_context_idle sec_utilization_events
  cases hc : cfg.CONFIG_MALI_SEC_UTILIZATION <;>
    by_cases h0 : d.active_count = 0 <;>
    by_cases h1 : d.active_count - 1 = 0 <;>
    by_cases hn : 0 ≤ d.active_count - 1 <;>
    simp [h1, h0, hc, hn, lock_rank]

/-- Replaying a concatenation is replaying the first part and then the second. -/
theorem check_discipline_append (a b : List Event) :
    ∀ held : List Lock,
      check_discipline held (a ++ b)
        = (check_discipline held a).bind fun held1 => check_discipline held1 b := by
  induction a with
  | nil => intro held; simp [check_discipline]
  | cons e rest ih =>
    intro held
    simp only [List.cons_append, check_discipline]
    cases hstep : discipline_step held e with
    | none => simp
    | some held1 => simpa using ih held1

/-- Events that are neither a lock nor an unlock leave the held locks as they are. -/
theorem check_discipline_no_lock (l : List Event)
    (hl : ∀ e ∈ l, (∀ k : Lock, e ≠ Event.lock k) ∧ (∀ k : Lock, e ≠ Event.unlock k)) :
    ∀ held : List Lock, check_discipline held l = some held := by
  induction l with
  | nil => intro held; rfl
  | cons e rest ih =>
    intro held
    have he := hl e (List.mem_cons_self e rest)
    have hstep : discipline_step held e = some held := by
      cases e <;> first | rfl | exact absurd rfl (he.1 _) | exact absurd rfl (he.2 _)
    simp only [check_discipline, hstep]
    exact ih (fun e1 h1 => hl e1 (List.mem_cons_of_mem e h1)) held

/-- Cutting a list that starts with `pre0` at an element that is not in `pre0`. -/
theorem split_after_head (x : Event) (rest post : List Event) :
    ∀ pre0 pre : List Event, x ∉ pre0 → pre0 ++ rest = pre ++ x :: post →
      ∃ mid : List Event, pre = pre0 ++ mid ∧ rest = mid ++ x :: post := by
  intro pre0
  induction pre0 with
  | nil => intro pre _ h; exact ⟨pre, rfl, by simpa using h⟩
  | cons e pre0 ih =>
    intro pre hx h
    cases pre with
    | nil =>
      simp only [List.cons_append, List.nil_append, List.cons.injEq] at h
      exact absurd (h.1 ▸ List.mem_cons_self e pre0) hx
    | cons p pre =>
      simp only [List.cons_append, List.cons.injEq] at h
      obtain ⟨mid, hmid, hrest⟩ := ih pre (fun hmem => hx (List.mem_cons_of_mem e hmem)) h.2
      exact ⟨mid, by rw [h.1, hmid]; rfl, hrest⟩

/-- The entry part of `kbase_pm_suspend` keeps the lock discipline, holds no lock at its end and
neither evaluates the wait condition nor sleeps. -/
theorem suspend_entry_discipline (cfg : Config) (env : Collaborators) (d : kbase_device) :
    check_discipline [] (kbase_pm_suspend_entry cfg env d).2 = some []
    ∧ Event.schedule ∉ (kbase_pm_suspend_entry cfg env d).2
    ∧ ∀ n : Int, Event.wait_event_condition n ∉ (kbase_pm_suspend_entry cfg env d).2 := by
  unfold kbase_pm_suspend_entry kbase_pm_is_suspending
  cases hc : cfg.CONFIG_MALI_SEC_HWCNT <;> cases hcb : env.hwcnt_disable_cb <;>
    cases hs : d.suspending <;>
    simp [check_discipline, discipline_step, may_acquire, lock_rank]

/-- Collaborators that keep a field also keep it in the calls alone. -/
theorem keep_calls {α : Type} (env : Collaborators) (field : kbase_device → α)
    (henv : env.keep field) : env.calls_keep field :=
  { js_suspend := henv.js_suspend
    vinstr_suspend := henv.vinstr_suspend
    hwcnt_disable := henv.hwcnt_disable
    hw_suspend := henv.hw_suspend
    hw_resume := henv.hw_resume
    vinstr_resume := henv.vinstr_resume
    hwcnt_enable := henv.hwcnt_enable
    soft_jobs := henv.soft_jobs
    js_resume := henv.js_resume }

/-- With collaborator calls that keep a field, the device that the entry part of
`kbase_pm_suspend` hands to the drain wait has the field of the entry device with the suspend
flag set. -/
theorem suspend_entry_calls_keep {α : Type} (cfg : Config) (env : Collaborators)
    (field : kbase_device → α) (hcalls : env.calls_keep field) (d : kbase_device) :
    field (kbase_pm_suspend_entry cfg env d).1 = field { d with suspending := true } := by
  have hjs := hcalls.js_suspend { d with suspending := true }
  unfold kbase_pm_suspend_entry
  cases hc : cfg.CONFIG_MALI_SEC_HWCNT
  · simp only [Bool.false_eq_true, if_false]
    exact (hcalls.vinstr_suspend _).trans hjs
  · cases hcb : env.hwcnt_disable_cb with
    | none => simpa using hjs
    | some cb =>
      simp only [if_true]
      exact (hcalls.hwcnt_disable cb hcb _).trans hjs

/-- With collaborators and other threads that keep the suspend flag, the device left by
`kbase_pm_suspend`, blocked or returned, has the flag set. -/
theorem suspend_sets_flag (cfg : Config) (env : Collaborators)
    (henv : env.keep kbase_device.suspending) (fuel : Nat) (d : kbase_device) :
    (kbase_pm_suspend cfg env fuel d).kbdev.suspending = true := by
  have he : (kbase_pm_suspend_entry cfg env d).1.suspending = true :=
    suspend_entry_calls_keep cfg env kbase_device.suspending
      (keep_calls env kbase_device.suspending henv) d
  have hw : (wait_event_zero_active_count env fuel 0
      (kbase_pm_suspend_entry cfg env d).1).kbdev.suspending
        = (kbase_pm_suspend_entry cfg env d).1.suspending :=
    wait_event_keeps env kbase_device.suspending henv fuel 0 _
  unfold kbase_pm_suspend
  cases hr : (wait_event_zero_active_count env fuel 0
      (kbase_pm_suspend_entry cfg env d).1).returned
  · simp only [hr, Bool.false_eq_true, if_false]
    exact hw.trans he
  · simp only [hr, if_true]
    exact (henv.hw_suspend _).trans (hw.trans he)

/-- A `kbase_pm_suspend` that returns leaves a device with no lease, when the hardware suspend
call keeps `active_count`. -/
theorem suspend_returned_count (cfg : Config) (env : Collaborators)
    (hcalls : env.calls_keep kbase_device.active_count) (fuel : Nat) (d : kbase_device)
    (hret : (kbase_pm_suspend cfg env fuel d).returned = true) :
    (kbase_pm_suspend cfg env fuel d).kbdev.active_count = 0 := by
  rw [(suspend_run_shape cfg env fuel d).1] at hret
  have hz := (wait_event_returned env fuel 0 _ hret).1
  unfold kbase_pm_suspend
  simp only [hret, if_true]
  exact (hcalls.hw_suspend _).trans hz

/-- With collaborator calls that keep a field, so does the instrumentation step of
`kbase_pm_resume`. -/
theorem instrumentation_resume_calls_keep {α : Type} (cfg : Config) (env : Collaborators)
    (field : kbase_device → α) (hcalls : env.calls_keep field) (d : kbase_device) :
    field (instrumentation_resume cfg env d) = field d := by
  unfold instrumentation_resume
  cases hc : cfg.CONFIG_MALI_SEC_HWCNT
  · simpa using hcalls.vinstr_resume d
  · cases hcb : env.hwcnt_enable_cb with
    | none => simp
    | some cb => simpa using hcalls.hwcnt_enable cb hcb d

/-- With collaborator calls that keep a field which the acquire and the release do not write,
`kbase_pm_resume` keeps the field. -/
theorem resume_calls_keep {α : Type} (cfg : Config) (env : Collaborators)
    (field : kbase_device → α) (hcalls : env.calls_keep field)
    (hact : ∀ x : kbase_device, field (kbase_pm_context_active cfg x).1 = field x)
    (hidle : ∀ x : kbase_device, field (kbase_pm_context_idle cfg x).1 = field x)
    (d : kbase_device) :
    field (kbase_pm_resume cfg env d).1 = field d := by
  rw [(resume_shape cfg env d).2, hidle]
  unfold resume_idle_device
  exact (hcalls.js_resume _).trans ((hcalls.soft_jobs _).trans
    ((instrumentation_resume_calls_keep cfg env field hcalls _).trans
      ((hact _).trans (hcalls.hw_resume d))))

/-- With collaborator calls that keep `active_count`, `kbase_pm_resume` returns the device with
the `active_count` it was given. -/
theorem resume_calls_keep_count (cfg : Config) (env : Collaborators)
    (hcalls : env.calls_keep kbase_device.active_count) (d : kbase_device) :
    (kbase_pm_resume cfg env d).1.active_count = d.active_count := by
  have hr : (env.kbase_hwaccess_pm_resume d).active_count = d.active_count := hcalls.hw_resume d
  have ha := (context_active_effect cfg (env.kbase_hwaccess_pm_resume d)).1
  have hi : (instrumentation_resume cfg env
      (kbase_pm_context_active cfg (env.kbase_hwaccess_pm_resume d)).1).active_count
        = (kbase_pm_context_active cfg (env.kbase_hwaccess_pm_resume d)).1.active_count :=
    instrumentation_resume_calls_keep cfg env kbase_device.active_count hcalls _
  have hsj : ∀ x : kbase_device,
      (env.kbase_resume_suspended_soft_jobs x).active_count = x.active_count := hcalls.soft_jobs
  have hjs : ∀ x : kbase_device, (env.kbasep_js_resume x).active_count = x.active_count :=
    hcalls.js_resume
  rw [(resume_shape cfg env d).2, (context_idle_effect cfg (resume_idle_device cfg env d)).1]
  unfold resume_idle_device
  rw [hjs, hsj, hi, ha, hr]
  omega

/-- `kbase_pm_resume` performs no store to the suspend flag. -/
theorem resume_no_store_suspending (cfg : Config) (env : Collaborators) (d : kbase_device)
    (v : Bool) : Event.store_suspending v ∉ (kbase_pm_resume cfg env d).2 := by
  rw [(resume_shape cfg env d).1]
  have hA := (context_active_effect cfg (env.kbase_hwaccess_pm_resume d)).2.2.2.2.2
  have hR := context_idle_no_orchestrator cfg (resume_idle_device cfg env d)
  have hI := (resume_markers cfg env d).2
  intro hmem
  simp only [List.mem_cons, List.mem_append, List.mem_singleton] at hmem
  rcases hmem with h | ((h | h) | h | h | h) | h
  · cases h
  · have := hA _ h; simp [Event.is_orchestrator] at this
  · rcases hI _ h with h1 | h1 | h1 | h1 <;> cases h1
  · cases h
  · cases h
  · cases h
  · have := hR _ h; simp [Event.is_orchestrator] at this

/-- The collaborator calls of `env_reopening` keep `active_count`. -/
theorem env_reopening_calls_keep_count : env_reopening.calls_keep kbase_device.active_count := by
  constructor <;> first
    | (intro d; rfl)
    | (intro cb hcb; simp [env_reopening, env_draining] at hcb)

/-- The collaborators of `env_reopening` and the other threads keep `gpu_powered`. -/
theorem env_reopening_keep_power : env_reopening.keep kbase_device.gpu_powered := by
  constructor <;> first
    | (intro d; rfl)
    | (intro k d; rfl)
    | (intro cb hcb; simp [env_reopening, env_draining] at hcb)

/-! ## Claims -/

/-- C1 (edge detection). A successful `kbase_pm_context_active_handle_suspend` emits the
"became active" notification exactly once when `active_count` was 0 before the call and not at
all otherwise; a `kbase_pm_context_idle` made with `active_count > 0` emits the "became idle"
notification exactly once when `active_count` was 1 and not at all otherwise; and over every
sequence of acquire/release calls that starts from `active_count = 0` and releases only while
`active_count > 0`, the number of "active" notifications in the trace is the number of `0 -> 1`
crossings and the number of "idle" notifications is the number of `1 -> 0` crossings. -/
theorem C1_edge_detection (cfg : Config) :
    (∀ (kbdev : kbase_device) (h : kbase_pm_suspend_handler),
        (kbase_pm_context_active_handle_suspend cfg kbdev h).1 = 0 →
        (kbase_pm_context_active_handle_suspend cfg kbdev h).2.2.count
            Event.hwaccess_pm_gpu_active
          = if kbdev.active_count = 0 then 1 else 0)
    ∧ (∀ kbdev : kbase_device, 0 < kbdev.active_count →
        (kbase_pm_context_idle cfg kbdev).2.count Event.hwaccess_pm_gpu_idle
          = if kbdev.active_count = 1 then 1 else 0)
    ∧ (∀ (kbdev : kbase_device) (calls : List PmCall),
        kbdev.active_count = 0 → releases_hold_lease cfg kbdev calls = true →
        (run_calls cfg kbdev calls).2.count Event.hwaccess_pm_gpu_active
            = crossings cfg 0 1 kbdev calls ∧
          (run_calls cfg kbdev calls).2.count Event.hwaccess_pm_gpu_idle
            = crossings cfg 1 0 kbdev calls) := by
  refine ⟨?_, ?_, ?_⟩
  · intro kbdev h hret
    rw [active_handle_suspend_gpu_active]
    simp [hret]
  · intro kbdev _
    exact (context_idle_gpu_idle cfg kbdev).1
  · intro kbdev calls _ _
    exact run_calls_notifications cfg calls kbdev

/-- C1 at concrete inputs: an acquire from the initial device, a release of the last lease, and
the sequence acquire, acquire, release, release. -/
theorem C1_edge_detection_witness :
    (kbase_pm_context_active_handle_suspend cfg_plain kbdev_init
        kbase_pm_suspend_handler.KBASE_PM_SUSPEND_HANDLER_NOT_POSSIBLE).2.2.count
          Event.hwaccess_pm_gpu_active = 1
    ∧ (kbase_pm_context_idle cfg_plain { kbdev_init with active_count := 1 }).2.count
          Event.hwaccess_pm_gpu_idle = 1
    ∧ (run_calls cfg_plain kbdev_init
          [PmCall.acquire kbase_pm_suspend_handler.KBASE_PM_SUSPEND_HANDLER_NOT_POSSIBLE,
           PmCall.acquire kbase_pm_suspend_handler.KBASE_PM_SUSPEND_HANDLER_DONT_INCREASE,
           PmCall.release, PmCall.release]).2.count Event.hwaccess_pm_gpu_active = 1
    ∧ (run_calls cfg_plain kbdev_init
          [PmCall.acquire kbase_pm_suspend_handler.KBASE_PM_SUSPEND_HANDLER_NOT_POSSIBLE,
           PmCall.acquire kbase_pm_suspend_handler.KBASE_PM_SUSPEND_HANDLER_DONT_INCREASE,
           PmCall.release, PmCall.release]).2.count Event.hwaccess_pm_gpu_idle = 1 := by
  refine ⟨?_, ?_, ?_, ?_⟩
  · exact ((C1_edge_detection cfg_plain).1 kbdev_init _ (by decide)).trans (by decide)
  · exact ((C1_edge_detection cfg_plain).2.1 _ (by decide)).trans (by decide)
  · exact (((C1_edge_detection cfg_plain).2.2 kbdev_init _ (by decide) (by decide)).1).trans
      (by decide)
  · exact (((C1_edge_detection cfg_plain).2.2 kbdev_init _ (by decide) (by decide)).2).trans
      (by decide)

/-- C2 (counting). Over every sequence of `kbase_pm_context_active_handle_suspend` (any policy)
and `kbase_pm_context_idle` calls run from `active_count = 0` with no suspend in progress, in
which every release is made with `active_count > 0`, the final `active_count` is the number of
acquires minus the number of releases, and `active_count` is non-negative after every initial
segment of the sequence. -/
theorem C2_counting (cfg : Config) (kbdev : kbase_device) (calls : List PmCall)
    (h0 : kbdev.active_count = 0) (hs : kbdev.suspending = false)
    (hr : releases_hold_lease cfg kbdev calls = true) :
    (run_calls cfg kbdev calls).1.active_count
        = (num_acquires calls : Int) - (num_releases calls : Int)
      ∧ ∀ k : Nat, 0 ≤ (run_calls cfg kbdev (calls.take k)).1.active_count
          ∧ (run_calls cfg kbdev (calls.take k)).1.suspending = false := by
  have key := run_calls_counting cfg calls kbdev (by omega) hs hr
  refine ⟨?_, key.2⟩
  rw [key.1, h0]; ring

/-- C2 at a concrete input: acquire, acquire, release, acquire from the initial device. -/
theorem C2_counting_witness :
    (run_calls cfg_sec kbdev_init
        [PmCall.acquire kbase_pm_suspend_handler.KBASE_PM_SUSPEND_HANDLER_DONT_INCREASE,
         PmCall.acquire kbase_pm_suspend_handler.KBASE_PM_SUSPEND_HANDLER_DONT_REACTIVATE,
         PmCall.release,
         PmCall.acquire kbase_pm_suspend_handler.KBASE_PM_SUSPEND_HANDLER_NOT_POSSIBLE]
      ).1.active_count = 2 :=
  (C2_counting cfg_sec kbdev_init _ (by decide) (by decide) (by decide)).1.trans (by decide)

/-- C3 (DontReactivate policy of the acquire). While a suspend is in progress,
`kbase_pm_context_active_handle_suspend` with `KBASE_PM_SUSPEND_HANDLER_DONT_REACTIVATE` is
rejected when `active_count = 0` (returns 1, device untouched, no hardware call) and accepted
when `active_count = n > 0` (returns 0, `active_count` becomes `n + 1`, no hardware call, so no
"became active" notification); with `active_count = 2` the count becomes 3. -/
theorem C3_dont_reactivate (cfg : Config) (kbdev : kbase_device)
    (hs : kbdev.suspending = true) :
    (kbdev.active_count = 0 →
        (kbase_pm_context_active_handle_suspend cfg kbdev
            kbase_pm_suspend_handler.KBASE_PM_SUSPEND_HANDLER_DONT_REACTIVATE).1 = 1
        ∧ (kbase_pm_context_active_handle_suspend cfg kbdev
            kbase_pm_suspend_handler.KBASE_PM_SUSPEND_HANDLER_DONT_REACTIVATE).2.1 = kbdev
        ∧ ∀ e ∈ (kbase_pm_context_active_handle_suspend cfg kbdev
            kbase_pm_suspend_handler.KBASE_PM_SUSPEND_HANDLER_DONT_REACTIVATE).2.2,
            e.is_hw_call = false)
    ∧ (0 < kbdev.active_count →
        (kbase_pm_context_active_handle_suspend cfg kbdev
            kbase_pm_suspend_handler.KBASE_PM_SUSPEND_HANDLER_DONT_REACTIVATE).1 = 0
        ∧ (kbase_pm_context_active_handle_suspend cfg kbdev
            kbase_pm_suspend_handler.KBASE_PM_SUSPEND_HANDLER_DONT_REACTIVATE).2.1.active_count
              = kbdev.active_count + 1
        ∧ ∀ e ∈ (kbase_pm_context_active_handle_suspend cfg kbdev
            kbase_pm_suspend_handler.KBASE_PM_SUSPEND_HANDLER_DONT_REACTIVATE).2.2,
            e.is_hw_call = false)
    ∧ (kbdev.active_count = 2 →
        (kbase_pm_context_active_handle_suspend cfg kbdev
            kbase_pm_suspend_handler.KBASE_PM_SUSPEND_HANDLER_DONT_REACTIVATE).1 = 0
        ∧ (kbase_pm_context_active_handle_suspend cfg kbdev
            kbase_pm_suspend_handler.KBASE_PM_SUSPEND_HANDLER_DONT_REACTIVATE).2.1.active_count
              = 3) := by
  refine ⟨?_, ?_, ?_⟩
  · intro h0
    simp [kbase_pm_context_active_handle_suspend, kbase_pm_is_suspending, hs, h0,
      Event.is_hw_call]
  · intro hpos
    have hne : kbdev.active_count ≠ 0 := by omega
    simp [kbase_pm_context_active_handle_suspend, kbase_pm_is_suspending, hs, hne,
      Event.is_hw_call]
  · intro h2
    simp [kbase_pm_context_active_handle_suspend, kbase_pm_is_suspending, hs, h2]

/-- C3 at concrete inputs: a suspending device with no lease, and one with two leases. -/
theorem C3_dont_reactivate_witness :
    (kbase_pm_context_active_handle_suspend cfg_plain (kbdev_powered 0 true)
        kbase_pm_suspend_handler.KBASE_PM_SUSPEND_HANDLER_DONT_REACTIVATE).1 = 1
    ∧ (kbase_pm_context_active_handle_suspend cfg_plain (kbdev_powered 2 true)
        kbase_pm_suspend_handler.KBASE_PM_SUSPEND_HANDLER_DONT_REACTIVATE).2.1.active_count
          = 2 + 1
    ∧ (kbase_pm_context_active_handle_suspend cfg_plain (kbdev_powered 2 true)
        kbase_pm_suspend_handler.KBASE_PM_SUSPEND_HANDLER_DONT_REACTIVATE).2.1.active_count
          = 3 :=
  ⟨((C3_dont_reactivate cfg_plain (kbdev_powered 0 true) rfl).1 rfl).1,
   ((C3_dont_reactivate cfg_plain (kbdev_powered 2 true) rfl).2.1 (by decide)).2.1,
   ((C3_dont_reactivate cfg_plain (kbdev_powered 2 true) rfl).2.2 rfl).2⟩

/-- C4 (DontIncrease rejects without side effects). While a suspend is in progress, for every
`active_count`, `kbase_pm_context_active_handle_suspend` with
`KBASE_PM_SUSPEND_HANDLER_DONT_INCREASE` returns 1, and
`kbase_pm_context_hold_noactivate_handle_suspend` with the same policy and the power on returns
`-EAGAIN`; in both cases the device is untouched and the events hold no hardware call and no
wake-up. -/
theorem C4_dont_increase (cfg : Config) (kbdev : kbase_device)
    (hs : kbdev.suspending = true) :
    ((kbase_pm_context_active_handle_suspend cfg kbdev
          kbase_pm_suspend_handler.KBASE_PM_SUSPEND_HANDLER_DONT_INCREASE).1 = 1
      ∧ (kbase_pm_context_active_handle_suspend cfg kbdev
          kbase_pm_suspend_handler.KBASE_PM_SUSPEND_HANDLER_DONT_INCREASE).2.1 = kbdev
      ∧ ∀ e ∈ (kbase_pm_context_active_handle_suspend cfg kbdev
          kbase_pm_suspend_handler.KBASE_PM_SUSPEND_HANDLER_DONT_INCREASE).2.2,
          e.is_hw_call = false ∧ e ≠ Event.wake_up_zero_active_count_wait)
    ∧ (kbdev.gpu_powered = true →
        (kbase_pm_context_hold_noactivate_handle_suspend kbdev
          kbase_pm_suspend_handler.KBASE_PM_SUSPEND_HANDLER_DONT_INCREASE).1 = -EAGAIN
      ∧ (kbase_pm_context_hold_noactivate_handle_suspend kbdev
          kbase_pm_suspend_handler.KBASE_PM_SUSPEND_HANDLER_DONT_INCREASE).2.1 = kbdev
      ∧ ∀ e ∈ (kbase_pm_context_hold_noactivate_handle_suspend kbdev
          kbase_pm_suspend_handler.KBASE_PM_SUSPEND_HANDLER_DONT_INCREASE).2.2,
          e.is_hw_call = false ∧ e ≠ Event.wake_up_zero_active_count_wait) := by
  refine ⟨?_, ?_⟩
  · by_cases h0 : kbdev.active_count = 0 <;>
      simp [kbase_pm_context_active_handle_suspend, kbase_pm_is_suspending, hs, h0,
        Event.is_hw_call]
  · intro hp
    simp [kbase_pm_context_hold_noactivate_handle_suspend, kbase_pm_is_suspending, hs, hp,
      hold_lock_all, hold_unlock_all, Event.is_hw_call]

/-- C4 at a concrete input: a suspending, powered device with one lease. -/
theorem C4_dont_increase_witness :
    (kbase_pm_context_active_handle_suspend cfg_sec (kbdev_powered 1 true)
        kbase_pm_suspend_handler.KBASE_PM_SUSPEND_HANDLER_DONT_INCREASE).1 = 1
    ∧ (kbase_pm_context_hold_noactivate_handle_suspend (kbdev_powered 1 true)
        kbase_pm_suspend_handler.KBASE_PM_SUSPEND_HANDLER_DONT_INCREASE).1 = -EAGAIN :=
  ⟨(C4_dont_increase cfg_sec (kbdev_powered 1 true) rfl).1.1,
   ((C4_dont_increase cfg_sec (kbdev_powered 1 true) rfl).2 rfl).1⟩

/-- C5, refuted as stated: the window does not last until `kbase_pm_resume` returns. After a
`kbase_pm_suspend` that returned with the suspend flag set, `kbase_pm_resume` first calls the
hardware resume, which here clears the flag; the acquire with
`KBASE_PM_SUSPEND_HANDLER_DONT_INCREASE` that the scheduler makes when it is resumed, still
inside `kbase_pm_resume`, returns 0, and `kbase_pm_resume` returns with that lease granted. -/
theorem C5_counterexample :
    (kbase_pm_suspend cfg_plain env_rescheduling 1 (kbdev_powered 0 false)).returned = true
    ∧ (kbase_pm_suspend cfg_plain env_rescheduling 1 (kbdev_powered 0 false)).kbdev.suspending
        = true
    ∧ (kbase_pm_context_active_handle_suspend cfg_plain
        (resume_js_device cfg_plain env_rescheduling
          (kbase_pm_suspend cfg_plain env_rescheduling 1 (kbdev_powered 0 false)).kbdev)
        kbase_pm_suspend_handler.KBASE_PM_SUSPEND_HANDLER_DONT_INCREASE).1 = 0
    ∧ (kbase_pm_resume cfg_plain env_rescheduling
        (kbase_pm_suspend cfg_plain env_rescheduling 1 (kbdev_powered 0 false)).kbdev
      ).1.active_count = 1
    ∧ (kbase_pm_resume cfg_plain env_rescheduling
        (kbase_pm_suspend cfg_plain env_rescheduling 1 (kbdev_powered 0 false)).kbdev
      ).1.suspending = false := by
  decide

/-- C5, amended (the suspend window closes DontIncrease acquires until a collaborator clears the
flag). When no collaborator and no other thread clears the suspend flag: `kbase_pm_suspend`
stores `true` into the flag and the device it leaves, blocked or returned, has the flag set;
from that device, after every initial segment of every sequence of lease operations (acquire,
try-acquire, release, any policy) the flag is still set, no operation stores to it, and a
`kbase_pm_context_active_handle_suspend` with `KBASE_PM_SUSPEND_HANDLER_DONT_INCREASE` made at
that point returns 1 and leaves the device, hence `active_count`, untouched; when the operation
number `k` of the sequence is such an acquire the device after it is the device before it; and
`kbase_pm_resume`, run after the sequence, performs no store to the flag and returns with the
flag still set. -/
theorem C5_suspend_window (cfg : Config) (env : Collaborators) (fuel : Nat)
    (kbdev0 : kbase_device) (ops : List LeaseOp) (henv : env.keep kbase_device.suspending) :
    Event.store_suspending true ∈ (kbase_pm_suspend cfg env fuel kbdev0).trace
    ∧ (kbase_pm_suspend cfg env fuel kbdev0).kbdev.suspending = true
    ∧ (∀ v : Bool, Event.store_suspending v ∉
        (run_ops cfg (kbase_pm_suspend cfg env fuel kbdev0).kbdev ops).2)
    ∧ (∀ k : Nat,
        (run_ops cfg (kbase_pm_suspend cfg env fuel kbdev0).kbdev (ops.take k)).1.suspending
          = true
        ∧ (kbase_pm_context_active_handle_suspend cfg
            (run_ops cfg (kbase_pm_suspend cfg env fuel kbdev0).kbdev (ops.take k)).1
            kbase_pm_suspend_handler.KBASE_PM_SUSPEND_HANDLER_DONT_INCREASE).1 = 1
        ∧ (kbase_pm_context_active_handle_suspend cfg
            (run_ops cfg (kbase_pm_suspend cfg env fuel kbdev0).kbdev (ops.take k)).1
            kbase_pm_suspend_handler.KBASE_PM_SUSPEND_HANDLER_DONT_INCREASE).2.1
              = (run_ops cfg (kbase_pm_suspend cfg env fuel kbdev0).kbdev (ops.take k)).1
        ∧ (ops.get? k = some (LeaseOp.acquire
              kbase_pm_suspend_handler.KBASE_PM_SUSPEND_HANDLER_DONT_INCREASE) →
            (run_ops cfg (kbase_pm_suspend cfg env fuel kbdev0).kbdev (ops.take (k + 1))).1
              = (run_ops cfg (kbase_pm_suspend cfg env fuel kbdev0).kbdev (ops.take k)).1))
    ∧ (kbase_pm_resume cfg env
        (run_ops cfg (kbase_pm_suspend cfg env fuel kbdev0).kbdev ops).1).1.suspending = true
    ∧ (∀ v : Bool, Event.store_suspending v ∉
        (kbase_pm_resume cfg env
          (run_ops cfg (kbase_pm_suspend cfg env fuel kbdev0).kbdev ops).1).2) := by
  have hs := suspend_sets_flag cfg env henv fuel kbdev0
  generalize (kbase_pm_suspend cfg env fuel kbdev0).kbdev = kbdev at hs ⊢
  refine ⟨?_, hs, (run_ops_suspending cfg ops kbdev).2, ?_, ?_,
    fun v => resume_no_store_suspending cfg env _ v⟩
  · rw [(suspend_run_shape cfg env fuel kbdev0).2]
    simp [suspend_entry_stores cfg env kbdev0]
  · intro k
    have hsk : (run_ops cfg kbdev (ops.take k)).1.suspending = true := by
      rw [(run_ops_suspending cfg (ops.take k) kbdev).1, hs]
    have hrej : (kbase_pm_context_active_handle_suspend cfg (run_ops cfg kbdev (ops.take k)).1
          kbase_pm_suspend_handler.KBASE_PM_SUSPEND_HANDLER_DONT_INCREASE).1 = 1
        ∧ (kbase_pm_context_active_handle_suspend cfg (run_ops cfg kbdev (ops.take k)).1
          kbase_pm_suspend_handler.KBASE_PM_SUSPEND_HANDLER_DONT_INCREASE).2.1
            = (run_ops cfg kbdev (ops.take k)).1 := by
      generalize (run_ops cfg kbdev (ops.take k)).1 = d at hsk
      by_cases h0 : d.active_count = 0 <;>
        simp [kbase_pm_context_active_handle_suspend, kbase_pm_is_suspending, hsk, h0]
    refine ⟨hsk, hrej.1, hrej.2, ?_⟩
    intro hk
    have hk2 : ops[k]? = some (LeaseOp.acquire
        kbase_pm_suspend_handler.KBASE_PM_SUSPEND_HANDLER_DONT_INCREASE) := by
      simpa using hk
    rw [List.take_succ, hk2]
    simp only [run_ops, Option.toList, run_seq_append, run_seq, LeaseOp.exec]
    exact hrej.2
  · have hflag : (kbase_pm_resume cfg env (run_ops cfg kbdev ops).1).1.suspending
        = (run_ops cfg kbdev ops).1.suspending :=
      resume_calls_keep cfg env kbase_device.suspending
        (keep_calls env kbase_device.suspending henv)
        (fun x => (context_active_effect cfg x).2.1)
        (fun x => (context_idle_effect cfg x).2.1) _
    rw [hflag, (run_ops_suspending cfg ops kbdev).1, hs]

/-- C5 amended, at a concrete input: a suspend that stays blocked on one outstanding lease, with
nobody clearing the flag, and a sequence whose second operation is a DontIncrease acquire. -/
theorem C5_suspend_window_witness :
    (kbase_pm_suspend cfg_plain env_stuck 3 (kbdev_powered 1 false)).kbdev.suspending = true
    ∧ (run_ops cfg_plain (kbase_pm_suspend cfg_plain env_stuck 3 (kbdev_powered 1 false)).kbdev
        ([LeaseOp.release,
          LeaseOp.acquire kbase_pm_suspend_handler.KBASE_PM_SUSPEND_HANDLER_DONT_INCREASE,
          LeaseOp.try_acquire kbase_pm_suspend_handler.KBASE_PM_SUSPEND_HANDLER_DONT_REACTIVATE
          ].take (1 + 1))).1
      = (run_ops cfg_plain (kbase_pm_suspend cfg_plain env_stuck 3 (kbdev_powered 1 false)).kbdev
        ([LeaseOp.release,
          LeaseOp.acquire kbase_pm_suspend_handler.KBASE_PM_SUSPEND_HANDLER_DONT_INCREASE,
          LeaseOp.try_acquire kbase_pm_suspend_handler.KBASE_PM_SUSPEND_HANDLER_DONT_REACTIVATE
          ].take 1)).1 :=
  ⟨(C5_suspend_window cfg_plain env_stuck 3 (kbdev_powered 1 false) [] (env_stuck_keep _)).2.1,
   ((C5_suspend_window cfg_plain env_stuck 3 (kbdev_powered 1 false) _
      (env_stuck_keep _)).2.2.2.1 1).2.2.2 rfl⟩

/-- C6 (drain before hardware suspend). In every run of `kbase_pm_suspend`, when the function
returns or the hardware suspend call appears in the trace, the trace ends with an evaluation of
the wait condition that observed `active_count == 0` followed by the one hardware suspend call,
and the store of `true` to the suspend flag comes before both. When no evaluation of the wait
condition, made after the scheduler and the instrumentation were told to suspend, ever finds
`active_count == 0`, the function does not return and the hardware suspend is not called,
whatever the fuel. When some evaluation finds zero, the function returns once the fuel allows
that many evaluations. -/
theorem C6_drain_before_hw_suspend (cfg : Config) (env : Collaborators) (fuel : Nat)
    (kbdev : kbase_device) :
    ((kbase_pm_suspend cfg env fuel kbdev).returned = true
        ∨ Event.hwaccess_pm_suspend ∈ (kbase_pm_suspend cfg env fuel kbdev).trace →
      ∃ pre : List Event,
        (kbase_pm_suspend cfg env fuel kbdev).trace
          = pre ++ [Event.wait_event_condition 0, Event.hwaccess_pm_suspend]
        ∧ Event.store_suspending true ∈ pre
        ∧ Event.hwaccess_pm_suspend ∉ pre
        ∧ (kbase_pm_suspend cfg env fuel kbdev).returned = true)
    ∧ ((∀ j : Nat,
          (drain_from env 0 (kbase_pm_suspend_entry cfg env kbdev).1 j).active_count ≠ 0) →
        (kbase_pm_suspend cfg env fuel kbdev).returned = false
        ∧ Event.hwaccess_pm_suspend ∉ (kbase_pm_suspend cfg env fuel kbdev).trace)
    ∧ (∀ j : Nat,
        (drain_from env 0 (kbase_pm_suspend_entry cfg env kbdev).1 j).active_count = 0 →
        j < fuel → (kbase_pm_suspend cfg env fuel kbdev).returned = true) := by
  obtain ⟨hret, htrace⟩ := suspend_run_shape cfg env fuel kbdev
  have hentry := suspend_entry_no_hw_suspend cfg env kbdev
  have halpha := wait_event_alphabet env fuel 0 (kbase_pm_suspend_entry cfg env kbdev).1
  have hwait : Event.hwaccess_pm_suspend ∉
      (wait_event_zero_active_count env fuel 0 (kbase_pm_suspend_entry cfg env kbdev).1).trace := by
    intro hmem
    rcases halpha _ hmem with h | ⟨n, h⟩ <;> cases h
  refine ⟨?_, ?_, ?_⟩
  · intro hor
    have hw : (wait_event_zero_active_count env fuel 0
        (kbase_pm_suspend_entry cfg env kbdev).1).returned = true := by
      rcases hor with h | h
      · rw [← hret]; exact h
      · rw [htrace] at h
        by_contra hfalse
        simp [hfalse, hentry, hwait] at h
    obtain ⟨_, p, hp⟩ := wait_event_returned env fuel 0 _ hw
    refine ⟨(kbase_pm_suspend_entry cfg env kbdev).2 ++ p, ?_, ?_, ?_, ?_⟩
    · rw [htrace, hp, hw]; simp
    · simp [suspend_entry_stores cfg env kbdev]
    · rw [hp] at hwait
      simp only [List.mem_append, not_or] at hwait ⊢
      exact ⟨hentry, hwait.1⟩
    · rw [hret]; exact hw
  · intro hne
    have hb := wait_event_blocked env fuel 0 _ hne
    refine ⟨by rw [hret]; exact hb, ?_⟩
    rw [htrace, hb]
    simp [hentry, hwait]
  · intro j hz hj
    rw [hret]
    exact wait_event_returns env fuel 0 _ j hz hj

/-- C6 at concrete inputs: with three leases released one per sleep and fuel 5 the suspend
returns with the hardware suspend as its last event; with nobody releasing the single lease it
stays blocked and the hardware suspend is not called. -/
theorem C6_drain_before_hw_suspend_witness :
    (∃ pre : List Event,
        (kbase_pm_suspend cfg_plain env_draining 5 (kbdev_powered 3 false)).trace
          = pre ++ [Event.wait_event_condition 0, Event.hwaccess_pm_suspend]
        ∧ Event.store_suspending true ∈ pre
        ∧ Event.hwaccess_pm_suspend ∉ pre
        ∧ (kbase_pm_suspend cfg_plain env_draining 5 (kbdev_powered 3 false)).returned = true)
    ∧ ((kbase_pm_suspend cfg_plain env_stuck 5 (kbdev_powered 1 false)).returned = false
        ∧ Event.hwaccess_pm_suspend ∉
          (kbase_pm_suspend cfg_plain env_stuck 5 (kbdev_powered 1 false)).trace)
    ∧ (kbase_pm_suspend cfg_plain env_draining 5 (kbdev_powered 3 false)).returned = true :=
  ⟨(C6_drain_before_hw_suspend cfg_plain env_draining 5 (kbdev_powered 3 false)).1
      (Or.inl (by decide)),
   (C6_drain_before_hw_suspend cfg_plain env_stuck 5 (kbdev_powered 1 false)).2.1
      (by
        intro j
        have hst : ∀ (n k : Nat) (d : kbase_device), drain_from env_stuck k d n = d := by
          intro n
          induction n with
          | zero => intro k d; rfl
          | succ n ih => intro k d; exact ih (k + 1) d
        rw [hst]
        decide),
   (C6_drain_before_hw_suspend cfg_plain env_draining 5 (kbdev_powered 3 false)).2.2 3
      (by decide) (by decide)⟩

/-- C7 (release of the last lease). With `active_count = 1`, `kbase_pm_context_idle` sets
`active_count` to 0 and its trace holds exactly one "became idle" notification and exactly one
wake-up of `zero_active_count_wait`, the wake-up after the notification; with
`active_count > 1` it emits neither. From `active_count = 0`, three acquires with
`KBASE_PM_SUSPEND_HANDLER_NOT_POSSIBLE` give count 3 with one activation, and three releases
then give count 0 with one idle notification and one wake-up. -/
theorem C7_release_last_lease (cfg : Config) :
    (∀ kbdev : kbase_device, kbdev.active_count = 1 →
        (kbase_pm_context_idle cfg kbdev).1.active_count = 0
        ∧ ∃ before between after : List Event,
            (kbase_pm_context_idle cfg kbdev).2
              = before ++ Event.hwaccess_pm_gpu_idle :: between
                  ++ Event.wake_up_zero_active_count_wait :: after
            ∧ (∀ e ∈ before ++ between ++ after,
                e ≠ Event.hwaccess_pm_gpu_idle ∧ e ≠ Event.wake_up_zero_active_count_wait))
    ∧ (∀ kbdev : kbase_device, 1 < kbdev.active_count →
        Event.hwaccess_pm_gpu_idle ∉ (kbase_pm_context_idle cfg kbdev).2
        ∧ Event.wake_up_zero_active_count_wait ∉ (kbase_pm_context_idle cfg kbdev).2)
    ∧ (∀ kbdev : kbase_device, kbdev.active_count = 0 →
        (run_calls cfg kbdev
            (List.replicate 3
              (PmCall.acquire kbase_pm_suspend_handler.KBASE_PM_SUSPEND_HANDLER_NOT_POSSIBLE))
          ).1.active_count = 3
        ∧ (run_calls cfg kbdev
            (List.replicate 3
              (PmCall.acquire kbase_pm_suspend_handler.KBASE_PM_SUSPEND_HANDLER_NOT_POSSIBLE))
          ).2.count Event.hwaccess_pm_gpu_active = 1
        ∧ (run_calls cfg
            (run_calls cfg kbdev
              (List.replicate 3
                (PmCall.acquire kbase_pm_suspend_handler.KBASE_PM_SUSPEND_HANDLER_NOT_POSSIBLE))
            ).1 (List.replicate 3 PmCall.release)).1.active_count = 0
        ∧ (run_calls cfg
            (run_calls cfg kbdev
              (List.replicate 3
                (PmCall.acquire kbase_pm_suspend_handler.KBASE_PM_SUSPEND_HANDLER_NOT_POSSIBLE))
            ).1 (List.replicate 3 PmCall.release)).2.count Event.hwaccess_pm_gpu_idle = 1
        ∧ (run_calls cfg
            (run_calls cfg kbdev
              (List.replicate 3
                (PmCall.acquire kbase_pm_suspend_handler.KBASE_PM_SUSPEND_HANDLER_NOT_POSSIBLE))
            ).1 (List.replicate 3 PmCall.release)).2.count
              Event.wake_up_zero_active_count_wait = 1) := by
  refine ⟨?_, ?_, ?_⟩
  · intro kbdev h1
    refine ⟨by rw [(context_idle_effect cfg kbdev).1, h1]; rfl, ?_⟩
    refine ⟨[Event.lock Lock.runpool_mutex, Event.lock Lock.pm_lock,
        Event.timeline_context_active 0,
        Event.trace_add_refcount TraceCode.PM_CONTEXT_IDLE 0],
      sec_utilization_events cfg false,
      [Event.unlock Lock.pm_lock, Event.unlock Lock.runpool_mutex], ?_, ?_⟩
    · simp [kbase_pm_context_idle, h1]
    · cases hc : cfg.CONFIG_MALI_SEC_UTILIZATION <;> simp [sec_utilization_events, hc]
  · intro kbdev hgt
    have hidle := (context_idle_gpu_idle cfg kbdev).1
    have hwake := (context_idle_gpu_idle cfg kbdev).2
    have hne : kbdev.active_count ≠ 1 := by omega
    simp only [hne, if_false] at hidle hwake
    exact ⟨List.count_eq_zero.mp hidle, List.count_eq_zero.mp hwake⟩
  · intro kbdev h0
    obtain ⟨n, s, p, m⟩ := kbdev
    obtain ⟨cu, ch⟩ := cfg
    simp only at h0
    subst h0
    cases s <;> cases p <;> cases m <;> cases cu <;> cases ch <;> decide

/-- C7 at concrete inputs: release of the single lease, release of one of two leases, and the
three-acquires scenario from the initial device. -/
theorem C7_release_last_lease_witness :
    (kbase_pm_context_idle cfg_sec (kbdev_powered 1 false)).1.active_count = 0
    ∧ Event.hwaccess_pm_gpu_idle ∉ (kbase_pm_context_idle cfg_sec (kbdev_powered 2 false)).2
    ∧ (run_calls cfg_sec kbdev_init
        (List.replicate 3
          (PmCall.acquire kbase_pm_suspend_handler.KBASE_PM_SUSPEND_HANDLER_NOT_POSSIBLE))
      ).1.active_count = 3 :=
  ⟨((C7_release_last_lease cfg_sec).1 (kbdev_powered 1 false) rfl).1,
   ((C7_release_last_lease cfg_sec).2.1 (kbdev_powered 2 false) (by decide)).1,
   ((C7_release_last_lease cfg_sec).2.2 kbdev_init rfl).1⟩

/-- C8 (no reactivation when powered off). With `gpu_powered = false`, for every policy, every
value of the suspend flag and every `active_count`,
`kbase_pm_context_hold_noactivate_handle_suspend` returns `-ENOENT`, leaves the device untouched
and performs no hardware call. -/
theorem C8_hold_noactivate_powered_off (kbdev : kbase_device)
    (suspend_handler : kbase_pm_suspend_handler) (hp : kbdev.gpu_powered = false) :
    (kbase_pm_context_hold_noactivate_handle_suspend kbdev suspend_handler).1 = -ENOENT
    ∧ (kbase_pm_context_hold_noactivate_handle_suspend kbdev suspend_handler).2.1 = kbdev
    ∧ ∀ e ∈ (kbase_pm_context_hold_noactivate_handle_suspend kbdev suspend_handler).2.2,
        e.is_hw_call = false := by
  simp [kbase_pm_context_hold_noactivate_handle_suspend, hp, hold_lock_all, hold_unlock_all,
    Event.is_hw_call]

/-- C8 at a concrete input: the initial device (power off) asked with the policy that would
otherwise assert. -/
theorem C8_hold_noactivate_powered_off_witness :
    (kbase_pm_context_hold_noactivate_handle_suspend { kbdev_init with suspending := true }
        kbase_pm_suspend_handler.KBASE_PM_SUSPEND_HANDLER_NOT_POSSIBLE).1 = -ENOENT :=
  (C8_hold_noactivate_powered_off { kbdev_init with suspending := true }
    kbase_pm_suspend_handler.KBASE_PM_SUSPEND_HANDLER_NOT_POSSIBLE rfl).1

/-- C9 (the code at the failing input). On a powered, suspending device with no lease,
`kbase_pm_context_hold_noactivate_handle_suspend` with
`KBASE_PM_SUSPEND_HANDLER_DONT_REACTIVATE` is not rejected: it returns 0, raises `active_count`
from 0 to 1 and emits the keep-active notification, while
`kbase_pm_context_active_handle_suspend` with the same policy on the same device returns 1 and
leaves the device untouched. -/
theorem C9_hold_noactivate_reactivates :
    ((kbase_pm_context_hold_noactivate_handle_suspend (kbdev_powered 0 true)
        kbase_pm_suspend_handler.KBASE_PM_SUSPEND_HANDLER_DONT_REACTIVATE).1 = 0
      ∧ (kbase_pm_context_hold_noactivate_handle_suspend (kbdev_powered 0 true)
        kbase_pm_suspend_handler.KBASE_PM_SUSPEND_HANDLER_DONT_REACTIVATE).2.1.active_count = 1
      ∧ Event.hwaccess_pm_gpu_keep_active_nolock ∈
        (kbase_pm_context_hold_noactivate_handle_suspend (kbdev_powered 0 true)
          kbase_pm_suspend_handler.KBASE_PM_SUSPEND_HANDLER_DONT_REACTIVATE).2.2)
    ∧ ¬ ((kbase_pm_context_hold_noactivate_handle_suspend (kbdev_powered 0 true)
          kbase_pm_suspend_handler.KBASE_PM_SUSPEND_HANDLER_DONT_REACTIVATE).1 ≠ 0
        ∧ (kbase_pm_context_hold_noactivate_handle_suspend (kbdev_powered 0 true)
          kbase_pm_suspend_handler.KBASE_PM_SUSPEND_HANDLER_DONT_REACTIVATE).2.1.active_count = 0
        ∧ Event.hwaccess_pm_gpu_keep_active_nolock ∉
          (kbase_pm_context_hold_noactivate_handle_suspend (kbdev_powered 0 true)
            kbase_pm_suspend_handler.KBASE_PM_SUSPEND_HANDLER_DONT_REACTIVATE).2.2)
    ∧ ((kbase_pm_context_active_handle_suspend cfg_plain (kbdev_powered 0 true)
          kbase_pm_suspend_handler.KBASE_PM_SUSPEND_HANDLER_DONT_REACTIVATE).1 = 1
      ∧ (kbase_pm_context_active_handle_suspend cfg_plain (kbdev_powered 0 true)
          kbase_pm_suspend_handler.KBASE_PM_SUSPEND_HANDLER_DONT_REACTIVATE).2.1
            = kbdev_powered 0 true) := by
  decide

/-- C10, refuted as stated: there are no two accepted calls of
`kbase_pm_context_active_handle_suspend`, one that took `active_count` from 0 to 1 and one that
took it from `n >= 1` to `n + 1`, whose return values differ. -/
theorem C10_counterexample :
    ¬ ∃ (cfg : Config) (d1 d2 : kbase_device) (h1 h2 : kbase_pm_suspend_handler),
        d1.active_count = 0
        ∧ (kbase_pm_context_active_handle_suspend cfg d1 h1).2.1.active_count = 1
        ∧ 1 ≤ d2.active_count
        ∧ (kbase_pm_context_active_handle_suspend cfg d2 h2).2.1.active_count
            = d2.active_count + 1
        ∧ (kbase_pm_context_active_handle_suspend cfg d1 h1).1
            ≠ (kbase_pm_context_active_handle_suspend cfg d2 h2).1 := by
  rintro ⟨cfg, d1, d2, h1, h2, h0, hacc1, _, hacc2, hne⟩
  have r1 : (kbase_pm_context_active_handle_suspend cfg d1 h1).1 = 0 := by
    rcases active_handle_suspend_effect cfg d1 h1 with ⟨hr, _⟩ | ⟨_, hd, _⟩
    · exact hr
    · rw [hd, h0] at hacc1; exact absurd hacc1 (by decide)
  have r2 : (kbase_pm_context_active_handle_suspend cfg d2 h2).1 = 0 := by
    rcases active_handle_suspend_effect cfg d2 h2 with ⟨hr, _⟩ | ⟨_, hd, _⟩
    · exact hr
    · rw [hd] at hacc2; omega
  exact hne (r1.trans r2.symm)

/-- C10, amended. The value returned by `kbase_pm_context_active_handle_suspend` reports only
whether the lease was granted: it is 0 exactly when `active_count` went up by one, whether from
0 (the activation, with its "became active" notification) or from `n >= 1`, and 1 exactly when
the device was left untouched. -/
theorem C10_return_reports_acceptance (cfg : Config) (kbdev : kbase_device)
    (suspend_handler : kbase_pm_suspend_handler) :
    ((kbase_pm_context_active_handle_suspend cfg kbdev suspend_handler).1 = 0
        ∨ (kbase_pm_context_active_handle_suspend cfg kbdev suspend_handler).1 = 1)
    ∧ ((kbase_pm_context_active_handle_suspend cfg kbdev suspend_handler).1 = 0 ↔
        (kbase_pm_context_active_handle_suspend cfg kbdev suspend_handler).2.1.active_count
          = kbdev.active_count + 1)
    ∧ ((kbase_pm_context_active_handle_suspend cfg kbdev suspend_handler).1 = 1 ↔
        (kbase_pm_context_active_handle_suspend cfg kbdev suspend_handler).2.1 = kbdev) := by
  rcases active_handle_suspend_effect cfg kbdev suspend_handler with ⟨hr, hc⟩ | ⟨hr, hd, _⟩
  · refine ⟨Or.inl hr, ⟨fun _ => hc, fun _ => hr⟩, ?_⟩
    rw [hr]
    refine ⟨fun h => absurd h (by decide), fun h => ?_⟩
    rw [h] at hc; omega
  · refine ⟨Or.inr hr, ?_, ⟨fun _ => hd, fun _ => hr⟩⟩
    rw [hr, hd]
    refine ⟨fun h => absurd h (by decide), fun h => ?_⟩
    omega

/-- C11, refuted as stated: with collaborators that do not change `active_count` and a hardware
resume that clears the suspend flag (so the internal acquire of `kbase_pm_resume` fails no
assertion), a device with three leases, released by their holders during the drain wait, comes
out of `kbase_pm_suspend` followed by `kbase_pm_resume` with `active_count = 0`, not 3. -/
theorem C11_counterexample :
    env_reopening.calls_keep kbase_device.active_count
    ∧ (kbase_pm_suspend cfg_plain env_reopening 5 (kbdev_powered 3 false)).returned = true
    ∧ (env_reopening.kbase_hwaccess_pm_resume
        (kbase_pm_suspend cfg_plain env_reopening 5 (kbdev_powered 3 false)).kbdev).suspending
          = false
    ∧ Event.debug_assert_fail Assertion.unreachable ∉
        (kbase_pm_resume cfg_plain env_reopening
          (kbase_pm_suspend cfg_plain env_reopening 5 (kbdev_powered 3 false)).kbdev).2
    ∧ (kbase_pm_resume cfg_plain env_reopening
        (kbase_pm_suspend cfg_plain env_reopening 5 (kbdev_powered 3 false)).kbdev
      ).1.active_count = 0
    ∧ (kbase_pm_resume cfg_plain env_reopening
        (kbase_pm_suspend cfg_plain env_reopening 5 (kbdev_powered 3 false)).kbdev
      ).1.active_count ≠ (kbdev_powered 3 false).active_count :=
  ⟨env_reopening_calls_keep_count, by decide, by decide, by decide, by decide, by decide⟩

/-- C11, amended (suspend/resume round trip). With collaborator calls (scheduler,
instrumentation, soft-job resume, hardware layer) that do not change `active_count`:
`kbase_pm_resume` records exactly one granted acquire and exactly one release and returns with
`active_count` as on entry, and it fails no "unreachable" assertion when the suspend flag is
clear after the hardware resume; a `kbase_pm_suspend` that returns leaves `active_count = 0`,
the value its drain wait observed, so `kbase_pm_suspend` followed by `kbase_pm_resume` leaves
`active_count = 0`, which is the value before `kbase_pm_suspend` exactly when that value was 0;
and `kbase_pm_suspend` does return when `active_count` is 0 on entry. The file never writes
`gpu_powered`: when neither the collaborators nor the other threads change it, `kbase_pm_resume`
and the round trip leave it as it was. -/
theorem C11_round_trip (cfg : Config) (env : Collaborators) (fuel : Nat) (kbdev : kbase_device)
    (hcalls : env.calls_keep kbase_device.active_count) :
    ((kbase_pm_resume cfg env kbdev).1.active_count = kbdev.active_count
      ∧ (kbase_pm_resume cfg env kbdev).2.countP (Event.is_refcount TraceCode.PM_CONTEXT_ACTIVE) = 1
      ∧ (kbase_pm_resume cfg env kbdev).2.countP (Event.is_refcount TraceCode.PM_CONTEXT_IDLE) = 1
      ∧ ((env.kbase_hwaccess_pm_resume kbdev).suspending = false →
          Event.debug_assert_fail Assertion.unreachable ∉ (kbase_pm_resume cfg env kbdev).2))
    ∧ ((kbase_pm_suspend cfg env fuel kbdev).returned = true →
        (kbase_pm_suspend cfg env fuel kbdev).kbdev.active_count = 0
        ∧ (kbase_pm_resume cfg env (kbase_pm_suspend cfg env fuel kbdev).kbdev).1.active_count
            = 0
        ∧ ((kbase_pm_resume cfg env (kbase_pm_suspend cfg env fuel kbdev).kbdev).1.active_count
              = kbdev.active_count
            ↔ kbdev.active_count = 0)
        ∧ ((env.kbase_hwaccess_pm_resume
              (kbase_pm_suspend cfg env fuel kbdev).kbdev).suspending = false →
            Event.debug_assert_fail Assertion.unreachable ∉
              (kbase_pm_resume cfg env (kbase_pm_suspend cfg env fuel kbdev).kbdev).2))
    ∧ (kbdev.active_count = 0 → 0 < fuel →
        (kbase_pm_suspend cfg env fuel kbdev).returned = true)
    ∧ (env.keep kbase_device.gpu_powered →
        (kbase_pm_resume cfg env kbdev).1.gpu_powered = kbdev.gpu_powered
        ∧ (kbase_pm_resume cfg env (kbase_pm_suspend cfg env fuel kbdev).kbdev).1.gpu_powered
            = kbdev.gpu_powered) := by
  have hassert : ∀ d : kbase_device, (env.kbase_hwaccess_pm_resume d).suspending = false →
      Event.debug_assert_fail Assertion.unreachable ∉ (kbase_pm_resume cfg env d).2 := by
    intro d hs
    rw [(resume_shape cfg env d).1]
    have hA := active_handle_suspend_unreachable cfg (env.kbase_hwaccess_pm_resume d)
      kbase_pm_suspend_handler.KBASE_PM_SUSPEND_HANDLER_NOT_POSSIBLE hs
    have hR := context_idle_no_unreachable cfg (resume_idle_device cfg env d)
    have hI : Event.debug_assert_fail Assertion.unreachable ∉
        instrumentation_resume_events cfg env := by
      intro hmem
      rcases (resume_markers cfg env d).2 _ hmem with h | h | h | h <;> cases h
    simp only [kbase_pm_context_active] at hA ⊢
    simp [hA, hR, hI]
  refine ⟨⟨resume_calls_keep_count cfg env hcalls kbdev,
      (resume_markers cfg env kbdev).1.2.1, (resume_markers cfg env kbdev).1.2.2.2.2,
      hassert kbdev⟩, ?_, ?_, ?_⟩
  · intro hret
    have hz := suspend_returned_count cfg env hcalls fuel kbdev hret
    have hr := (resume_calls_keep_count cfg env hcalls
      (kbase_pm_suspend cfg env fuel kbdev).kbdev).trans hz
    refine ⟨hz, hr, ?_, hassert _⟩
    rw [hr]
    exact ⟨fun h => h.symm, fun h => h.symm⟩
  · intro h0 hfuel
    rw [(suspend_run_shape cfg env fuel kbdev).1]
    refine wait_event_returns env fuel 0 _ 0 ?_ hfuel
    simp only [drain_from]
    exact (suspend_entry_calls_keep cfg env kbase_device.active_count hcalls kbdev).trans h0
  · intro hpow
    have hcp := keep_calls env kbase_device.gpu_powered hpow
    have hres : ∀ d : kbase_device, (kbase_pm_resume cfg env d).1.gpu_powered = d.gpu_powered :=
      fun d => resume_calls_keep cfg env kbase_device.gpu_powered hcp
        (fun x => (context_active_effect cfg x).2.2.1)
        (fun x => (context_idle_effect cfg x).2.2) d
    exact ⟨hres kbdev, (hres _).trans
      (suspend_keeps cfg env kbase_device.gpu_powered hpow (fun _ => rfl) fuel kbdev)⟩

/-- C11 amended, at a concrete input: three leases released during the drain wait, a hardware
resume that clears the flag; the round trip ends with no lease and no failed assertion in
`kbase_pm_resume`. -/
theorem C11_round_trip_witness :
    (kbase_pm_resume cfg_plain env_reopening
        (kbase_pm_suspend cfg_plain env_reopening 5 (kbdev_powered 3 false)).kbdev
      ).1.active_count = 0
    ∧ Event.debug_assert_fail Assertion.unreachable ∉
        (kbase_pm_resume cfg_plain env_reopening
          (kbase_pm_suspend cfg_plain env_reopening 5 (kbdev_powered 3 false)).kbdev).2
    ∧ (kbase_pm_suspend cfg_plain env_reopening 5 (kbdev_powered 0 false)).returned = true
    ∧ (kbase_pm_resume cfg_plain env_reopening
        (kbase_pm_suspend cfg_plain env_reopening 5 (kbdev_powered 3 false)).kbdev
      ).1.gpu_powered = (kbdev_powered 3 false).gpu_powered :=
  ⟨((C11_round_trip cfg_plain env_reopening 5 (kbdev_powered 3 false)
      env_reopening_calls_keep_count).2.1 (by decide)).2.1,
   ((C11_round_trip cfg_plain env_reopening 5 (kbdev_powered 3 false)
      env_reopening_calls_keep_count).2.1 (by decide)).2.2.2 (by decide),
   (C11_round_trip cfg_plain env_reopening 5 (kbdev_powered 0 false)
      env_reopening_calls_keep_count).2.2.1 rfl (by decide),
   ((C11_round_trip cfg_plain env_reopening 5 (kbdev_powered 3 false)
      env_reopening_calls_keep_count).2.2.2 env_reopening_keep_power).2⟩

/-- C12 (release precondition). The debug assertion `c >= 0` of `kbase_pm_context_idle` fails
exactly when `active_count` was `<= 0` before the call; with `active_count > 0` no assertion
fails and `active_count` goes down by exactly one. -/
theorem C12_release_precondition (cfg : Config) (kbdev : kbase_device) :
    (Event.debug_assert_fail Assertion.count_nonneg ∈ (kbase_pm_context_idle cfg kbdev).2
        ↔ kbdev.active_count ≤ 0)
    ∧ (0 < kbdev.active_count →
        (∀ e ∈ (kbase_pm_context_idle cfg kbdev).2, e.is_debug_assert = false)
        ∧ (kbase_pm_context_idle cfg kbdev).1.active_count = kbdev.active_count - 1) := by
  have key : (0 ≤ kbdev.active_count - 1) ↔ ¬ kbdev.active_count ≤ 0 := by omega
  refine ⟨?_, ?_⟩
  · unfold kbase_pm_context_idle sec_utilization_events
    cases hc : cfg.CONFIG_MALI_SEC_UTILIZATION <;>
      by_cases h1 : kbdev.active_count - 1 = 0 <;> by_cases h0 : kbdev.active_count = 0 <;>
      by_cases hn : kbdev.active_count ≤ 0 <;> simp [h1, h0, hc, hn, key] <;> omega
  · intro hpos
    have hn : ¬ kbdev.active_count ≤ 0 := by omega
    have h0 : kbdev.active_count ≠ 0 := by omega
    refine ⟨?_, (context_idle_effect cfg kbdev).1⟩
    unfold kbase_pm_context_idle sec_utilization_events
    cases hc : cfg.CONFIG_MALI_SEC_UTILIZATION <;>
      by_cases h1 : kbdev.active_count - 1 = 0 <;>
      simp [h1, h0, hc, hn, key, Event.is_debug_assert]

/-- C12 at a concrete input: the release of one of two leases. -/
theorem C12_release_precondition_witness :
    (kbase_pm_context_idle cfg_sec (kbdev_powered 2 false)).1.active_count = 2 - 1 :=
  ((C12_release_precondition cfg_sec (kbdev_powered 2 false)).2 (by decide)).2

/-- C13 (NotPossible policy). For `kbase_pm_context_active_handle_suspend`, and for
`kbase_pm_context_hold_noactivate_handle_suspend` with the power on, a call with
`KBASE_PM_SUSPEND_HANDLER_NOT_POSSIBLE` or with a value outside the three enumerators fails the
"unreachable" assertion exactly when a suspend is in progress; with no suspend in progress the
call fails no assertion, returns 0 and raises `active_count` by one. `kbase_pm_context_active`
is the `KBASE_PM_SUSPEND_HANDLER_NOT_POSSIBLE` acquire without its returned value. -/
theorem C13_not_possible (cfg : Config) (kbdev : kbase_device)
    (suspend_handler : kbase_pm_suspend_handler)
    (hh : suspend_handler = kbase_pm_suspend_handler.KBASE_PM_SUSPEND_HANDLER_NOT_POSSIBLE
      ∨ ∃ raw : Nat, suspend_handler = kbase_pm_suspend_handler.OTHER raw) :
    (Event.debug_assert_fail Assertion.unreachable ∈
        (kbase_pm_context_active_handle_suspend cfg kbdev suspend_handler).2.2
      ↔ kbdev.suspending = true)
    ∧ (kbdev.gpu_powered = true →
        (Event.debug_assert_fail Assertion.unreachable ∈
            (kbase_pm_context_hold_noactivate_handle_suspend kbdev suspend_handler).2.2
          ↔ kbdev.suspending = true))
    ∧ (kbdev.suspending = false →
        (∀ e ∈ (kbase_pm_context_active_handle_suspend cfg kbdev suspend_handler).2.2,
          e.is_debug_assert = false)
        ∧ (kbase_pm_context_active_handle_suspend cfg kbdev suspend_handler).1 = 0
        ∧ (kbase_pm_context_active_handle_suspend cfg kbdev suspend_handler).2.1.active_count
            = kbdev.active_count + 1)
    ∧ (kbdev.suspending = false → kbdev.gpu_powered = true →
        (∀ e ∈ (kbase_pm_context_hold_noactivate_handle_suspend kbdev suspend_handler).2.2,
          e.is_debug_assert = false)
        ∧ (kbase_pm_context_hold_noactivate_handle_suspend kbdev suspend_handler).1 = 0
        ∧ (kbase_pm_context_hold_noactivate_handle_suspend kbdev suspend_handler).2.1.active_count
            = kbdev.active_count + 1)
    ∧ kbase_pm_context_active cfg kbdev
        = (kbase_pm_context_active_handle_suspend cfg kbdev
            kbase_pm_suspend_handler.KBASE_PM_SUSPEND_HANDLER_NOT_POSSIBLE).2 := by
  refine ⟨?_, ?_, ?_, ?_, rfl⟩
  · unfold kbase_pm_context_active_handle_suspend sec_utilization_events kbase_pm_is_suspending
    rcases hh with hh | ⟨raw, hh⟩ <;> subst hh <;> cases hs : kbdev.suspending <;>
      cases hc : cfg.CONFIG_MALI_SEC_UTILIZATION <;>
      by_cases h0 : kbdev.active_count = 0 <;> simp [h0, hs, hc]
  · intro hp
    unfold kbase_pm_context_hold_noactivate_handle_suspend kbase_pm_is_suspending
      hold_lock_all hold_unlock_all
    rcases hh with hh | ⟨raw, hh⟩ <;> subst hh <;> cases hs : kbdev.suspending <;>
      by_cases h0 : kbdev.active_count + 1 = 1 <;> simp [h0, hs, hp]
  · intro hs
    refine ⟨?_, active_handle_suspend_not_suspending cfg kbdev suspend_handler hs⟩
    unfold kbase_pm_context_active_handle_suspend sec_utilization_events kbase_pm_is_suspending
    cases hc : cfg.CONFIG_MALI_SEC_UTILIZATION <;>
      by_cases h0 : kbdev.active_count = 0 <;> simp [h0, hs, hc, Event.is_debug_assert]
  · intro hs hp
    unfold kbase_pm_context_hold_noactivate_handle_suspend kbase_pm_is_suspending
      hold_lock_all hold_unlock_all
    by_cases h0 : kbdev.active_count + 1 = 1 <;> simp [h0, hs, hp, Event.is_debug_assert]

/-- C13 at concrete inputs: the initial device, and a powered device with one lease. -/
theorem C13_not_possible_witness :
    (kbase_pm_context_active_handle_suspend cfg_plain kbdev_init
        kbase_pm_suspend_handler.KBASE_PM_SUSPEND_HANDLER_NOT_POSSIBLE).2.1.active_count
      = 0 + 1
    ∧ (kbase_pm_context_hold_noactivate_handle_suspend (kbdev_powered 1 false)
        (kbase_pm_suspend_handler.OTHER 7)).2.1.active_count = 1 + 1 :=
  ⟨((C13_not_possible cfg_plain kbdev_init _ (Or.inl rfl)).2.2.1 rfl).2.2,
   ((C13_not_possible cfg_plain (kbdev_powered 1 false) _ (Or.inr ⟨7, rfl⟩)).2.2.2.1 rfl rfl).2.2⟩

/-- C14 (suspend entry). In every run of `kbase_pm_suspend` the trace starts with the lock of
`pm.lock`, the failed assertion when the flag was already set, the store of `true` to the
suspend flag, the unlock and only then the call of the scheduler collaborator, every other
collaborator coming later; the device handed to the scheduler is the device on entry with only
the suspend flag changed, and when the collaborators and the other threads leave
`active_count` alone so does `kbase_pm_suspend`. The
"not suspending" assertion fails exactly when the flag was set on entry; with the flag clear
no assertion fails. -/
theorem C14_suspend_entry (cfg : Config) (env : Collaborators) (fuel : Nat)
    (kbdev : kbase_device) :
    (∃ rest : List Event,
        (kbase_pm_suspend cfg env fuel kbdev).trace
          = Event.lock Lock.pm_lock
            :: ((if kbdev.suspending then [Event.debug_assert_fail Assertion.not_suspending]
                  else [])
              ++ Event.store_suspending true :: Event.unlock Lock.pm_lock
                :: Event.js_suspend :: rest))
    ∧ ((kbase_pm_suspend_entry cfg env kbdev).1
          = instrumentation_suspend cfg env
              (env.kbasep_js_suspend { kbdev with suspending := true })
        ∧ (env.keep kbase_device.active_count →
            (kbase_pm_suspend cfg env fuel kbdev).kbdev.active_count = kbdev.active_count))
    ∧ (Event.debug_assert_fail Assertion.not_suspending ∈
          (kbase_pm_suspend cfg env fuel kbdev).trace
        ↔ kbdev.suspending = true)
    ∧ (kbdev.suspending = false →
        ∀ e ∈ (kbase_pm_suspend cfg env fuel kbdev).trace, e.is_debug_assert = false) := by
  obtain ⟨⟨rest, hrest, hrest_na⟩, hdev⟩ := suspend_entry_shape cfg env kbdev
  have htrace := (suspend_run_shape cfg env fuel kbdev).2
  have halpha := wait_event_alphabet env fuel 0 (kbase_pm_suspend_entry cfg env kbdev).1
  have hwait : ∀ e ∈ (wait_event_zero_active_count env fuel 0
      (kbase_pm_suspend_entry cfg env kbdev).1).trace, e.is_debug_assert = false := by
    intro e he
    rcases halpha e he with h | ⟨n, h⟩ <;> rw [h] <;> rfl
  have htail : ∀ e ∈ (if (wait_event_zero_active_count env fuel 0
      (kbase_pm_suspend_entry cfg env kbdev).1).returned then [Event.hwaccess_pm_suspend]
        else []), e.is_debug_assert = false := by
    intro e he
    split at he
    · rw [List.mem_singleton.mp he]; rfl
    · cases he
  have hna : ∀ e, e.is_debug_assert = false → e ≠ Event.debug_assert_fail Assertion.not_suspending := by
    intro e he h
    rw [h] at he
    exact absurd he (by decide)
  refine ⟨⟨rest ++ (wait_event_zero_active_count env fuel 0
      (kbase_pm_suspend_entry cfg env kbdev).1).trace
        ++ (if (wait_event_zero_active_count env fuel 0
              (kbase_pm_suspend_entry cfg env kbdev).1).returned
            then [Event.hwaccess_pm_suspend] else []), ?_⟩,
    ⟨hdev, fun henv =>
      suspend_keeps cfg env kbase_device.active_count henv (fun _ => rfl) fuel kbdev⟩, ?_, ?_⟩
  · rw [htrace, hrest]
    simp
  · rw [htrace, hrest]
    cases hs : kbdev.suspending
    · simp only [Bool.false_eq_true, if_false, iff_false]
      intro hmem
      simp only [List.nil_append, List.mem_cons, List.mem_append, List.cons_append] at hmem
      rcases hmem with h | h | h | h | (h | h) | h <;>
        first
        | (cases h; done)
        | exact hna _ (hrest_na _ h) rfl
        | exact hna _ (hwait _ h) rfl
        | exact hna _ (htail _ h) rfl
    · simp
  · intro hs e he
    rw [htrace, hrest, hs] at he
    simp only [Bool.false_eq_true, if_false, List.nil_append, List.mem_cons, List.mem_append,
      List.cons_append] at he
    rcases he with h | h | h | h | (h | h) | h <;>
      first
      | (rw [h]; rfl)
      | exact hrest_na _ h
      | exact hwait _ h
      | exact htail _ h

/-- C14 at a concrete input: a suspend of the initial device. -/
theorem C14_suspend_entry_witness :
    (∀ e ∈ (kbase_pm_suspend cfg_sec env_stuck 2 kbdev_init).trace,
      e.is_debug_assert = false)
    ∧ (kbase_pm_suspend cfg_sec env_stuck 2 kbdev_init).kbdev.active_count
        = kbdev_init.active_count :=
  ⟨(C14_suspend_entry cfg_sec env_stuck 2 kbdev_init).2.2.2 rfl,
   (C14_suspend_entry cfg_sec env_stuck 2 kbdev_init).2.1.2 (env_stuck_keep _)⟩

/-- C15 (resume ordering). The trace of every `kbase_pm_resume` is: the hardware resume, then
the events of the internal `kbase_pm_context_active`, then the instrumentation step
(`kbase_vinstr_resume`, or under `CONFIG_MALI_SEC_HWCNT` the `hwcnt.mlock` section with the
vendor callback when there is one), then the resume of the suspended soft jobs, then
`kbasep_js_resume`, then the events of the matching `kbase_pm_context_idle`, which end the
trace. The hardware resume, the soft-job resume and the scheduler resume occur once each, the
one granted acquire lies in the second segment and the one release in the last, so no acquire
and no scheduler resume comes before the hardware resume. -/
theorem C15_resume_ordering (cfg : Config) (env : Collaborators) (kbdev : kbase_device) :
    (kbase_pm_resume cfg env kbdev).2
        = Event.hwaccess_pm_resume
          :: ((kbase_pm_context_active cfg (env.kbase_hwaccess_pm_resume kbdev)).2
            ++ instrumentation_resume_events cfg env
            ++ [Event.resume_suspended_soft_jobs, Event.js_resume]
            ++ (kbase_pm_context_idle cfg (resume_idle_device cfg env kbdev)).2)
    ∧ ((kbase_pm_context_active cfg (env.kbase_hwaccess_pm_resume kbdev)).2.countP
          (Event.is_refcount TraceCode.PM_CONTEXT_ACTIVE) = 1
      ∧ (kbase_pm_context_idle cfg (resume_idle_device cfg env kbdev)).2.countP
          (Event.is_refcount TraceCode.PM_CONTEXT_IDLE) = 1)
    ∧ ((kbase_pm_resume cfg env kbdev).2.count Event.hwaccess_pm_resume = 1
      ∧ (kbase_pm_resume cfg env kbdev).2.countP (Event.is_refcount TraceCode.PM_CONTEXT_ACTIVE) = 1
      ∧ (kbase_pm_resume cfg env kbdev).2.count Event.resume_suspended_soft_jobs = 1
      ∧ (kbase_pm_resume cfg env kbdev).2.count Event.js_resume = 1
      ∧ (kbase_pm_resume cfg env kbdev).2.countP (Event.is_refcount TraceCode.PM_CONTEXT_IDLE) = 1)
    ∧ (∀ e ∈ instrumentation_resume_events cfg env,
        e = Event.vinstr_resume ∨ e = Event.hwcnt_enable ∨ e = Event.lock Lock.hwcnt_mlock
          ∨ e = Event.unlock Lock.hwcnt_mlock) := by
  exact ⟨(resume_shape cfg env kbdev).1,
    ⟨(context_active_effect cfg (env.kbase_hwaccess_pm_resume kbdev)).2.2.2.1,
      (context_idle_refcount cfg (resume_idle_device cfg env kbdev)).1⟩,
    (resume_markers cfg env kbdev).1, (resume_markers cfg env kbdev).2⟩

/-- C15 at a concrete input: without `CONFIG_MALI_SEC_HWCNT` the instrumentation step is the
call of `kbase_vinstr_resume`. -/
theorem C15_resume_ordering_witness :
    Event.vinstr_resume = Event.vinstr_resume ∨ Event.vinstr_resume = Event.hwcnt_enable
      ∨ Event.vinstr_resume = Event.lock Lock.hwcnt_mlock
      ∨ Event.vinstr_resume = Event.unlock Lock.hwcnt_mlock :=
  (C15_resume_ordering cfg_plain env_draining kbdev_init).2.2.2 Event.vinstr_resume (by decide)

/-- C16 (lock discipline). Replaying the lock and unlock events of every path of
`kbase_pm_context_hold_noactivate_handle_suspend`, `kbase_pm_context_active_handle_suspend` and
`kbase_pm_context_idle`, the early `-ENOENT`, `-EAGAIN` and rejected returns included: no lock of
the hierarchy run-pool mutex, `pm.lock`, `hwaccess_lock`, `gpu_powered_lock` is taken while a
lock at the same or a later position is held, every release releases the lock taken last, and
no lock is held on return. The try-acquire takes hierarchy locks only; the acquire and the
release take hierarchy locks and, under `CONFIG_MALI_SEC_UTILIZATION`, `metrics.lock`. -/
theorem C16_lock_discipline (cfg : Config) (kbdev : kbase_device)
    (suspend_handler : kbase_pm_suspend_handler) :
    (check_discipline []
          (kbase_pm_context_hold_noactivate_handle_suspend kbdev suspend_handler).2.2 = some []
      ∧ ∀ l : Lock,
          Event.lock l ∈ (kbase_pm_context_hold_noactivate_handle_suspend kbdev suspend_handler).2.2 →
          (lock_rank l).isSome = true)
    ∧ (check_discipline []
          (kbase_pm_context_active_handle_suspend cfg kbdev suspend_handler).2.2 = some []
      ∧ ∀ l : Lock,
          Event.lock l ∈ (kbase_pm_context_active_handle_suspend cfg kbdev suspend_handler).2.2 →
          (lock_rank l).isSome = true
            ∨ (l = Lock.metrics_lock ∧ cfg.CONFIG_MALI_SEC_UTILIZATION = true))
    ∧ (check_discipline [] (kbase_pm_context_idle cfg kbdev).2 = some []
      ∧ ∀ l : Lock, Event.lock l ∈ (kbase_pm_context_idle cfg kbdev).2 →
          (lock_rank l).isSome = true
            ∨ (l = Lock.metrics_lock ∧ cfg.CONFIG_MALI_SEC_UTILIZATION = true)) :=
  ⟨hold_noactivate_discipline kbdev suspend_handler,
   ⟨active_handle_suspend_discipline cfg kbdev suspend_handler,
    active_handle_suspend_locks cfg kbdev suspend_handler⟩,
   ⟨context_idle_discipline cfg kbdev, context_idle_locks cfg kbdev⟩⟩

/-- C16 at concrete inputs: the rejected try-acquire on the initial device (power off), and the
activation under `CONFIG_MALI_SEC_UTILIZATION`, which takes `metrics.lock`. -/
theorem C16_lock_discipline_witness :
    (lock_rank Lock.gpu_powered_lock).isSome = true
    ∧ ((lock_rank Lock.metrics_lock).isSome = true
        ∨ (Lock.metrics_lock = Lock.metrics_lock ∧ cfg_sec.CONFIG_MALI_SEC_UTILIZATION = true)) :=
  ⟨(C16_lock_discipline cfg_sec kbdev_init
      kbase_pm_suspend_handler.KBASE_PM_SUSPEND_HANDLER_DONT_INCREASE).1.2
      Lock.gpu_powered_lock (by decide),
   (C16_lock_discipline cfg_sec kbdev_init
      kbase_pm_suspend_handler.KBASE_PM_SUSPEND_HANDLER_DONT_INCREASE).2.1.2
      Lock.metrics_lock (by decide)⟩

/-- C17 (no lock across the drain wait). In every run of `kbase_pm_suspend`, `pm.lock` is taken
and released in the entry part, and replaying the lock and unlock events of the trace up to any
evaluation of the wait condition, or up to any sleep of the wait, leaves no lock held: the
entry part ends with no lock held and no lock is taken before or during the wait. -/
theorem C17_no_lock_across_wait (cfg : Config) (env : Collaborators) (fuel : Nat)
    (kbdev : kbase_device) :
    (Event.lock Lock.pm_lock ∈ (kbase_pm_suspend_entry cfg env kbdev).2
      ∧ check_discipline [] (kbase_pm_suspend_entry cfg env kbdev).2 = some [])
    ∧ ∀ (pre post : List Event) (x : Event),
        (x = Event.schedule ∨ ∃ n : Int, x = Event.wait_event_condition n) →
        (kbase_pm_suspend cfg env fuel kbdev).trace = pre ++ x :: post →
        check_discipline [] pre = some [] := by
  obtain ⟨hdisc, hsched, hcond⟩ := suspend_entry_discipline cfg env kbdev
  obtain ⟨⟨rest, hrest, _⟩, _⟩ := suspend_entry_shape cfg env kbdev
  refine ⟨⟨by rw [hrest]; exact List.mem_cons_self _ _, hdisc⟩, ?_⟩
  intro pre post x hx htrace
  have hxE : x ∉ (kbase_pm_suspend_entry cfg env kbdev).2 := by
    rcases hx with h | ⟨n, h⟩
    · rw [h]; exact hsched
    · rw [h]; exact hcond n
  rw [(suspend_run_shape cfg env fuel kbdev).2, List.append_assoc] at htrace
  obtain ⟨mid, hpre, hmid⟩ := split_after_head x _ post _ pre hxE htrace
  have halpha := wait_event_alphabet env fuel 0 (kbase_pm_suspend_entry cfg env kbdev).1
  have hmid_no_lock : ∀ e ∈ mid,
      (∀ k : Lock, e ≠ Event.lock k) ∧ (∀ k : Lock, e ≠ Event.unlock k) := by
    intro e he
    have hmem : e ∈ (wait_event_zero_active_count env fuel 0
        (kbase_pm_suspend_entry cfg env kbdev).1).trace
        ++ (if (wait_event_zero_active_count env fuel 0
              (kbase_pm_suspend_entry cfg env kbdev).1).returned
            then [Event.hwaccess_pm_suspend] else []) := by
      rw [hmid]; exact List.mem_append_left _ he
    rcases List.mem_append.mp hmem with h | h
    · rcases halpha e h with h1 | ⟨n, h1⟩ <;> rw [h1] <;>
        exact ⟨fun k hk => (by cases hk), fun k hk => (by cases hk)⟩
    · split at h
      · rw [List.mem_singleton.mp h]
        exact ⟨fun k hk => (by cases hk), fun k hk => (by cases hk)⟩
      · cases h
  rw [hpre, check_discipline_append, hdisc]
  exact check_discipline_no_lock mid hmid_no_lock []

/-- C17 at a concrete input: the first sleep of a suspend that waits for one lease. -/
theorem C17_no_lock_across_wait_witness :
    check_discipline []
      [Event.lock Lock.pm_lock, Event.store_suspending true, Event.unlock Lock.pm_lock,
       Event.js_suspend, Event.vinstr_suspend, Event.wait_event_condition 1] = some [] :=
  (C17_no_lock_across_wait cfg_plain env_draining 3 (kbdev_powered 1 false)).2 _
    [Event.wait_event_condition 0, Event.hwaccess_pm_suspend] Event.schedule (Or.inl rfl)
    (by decide)

/-- C18 (the return code decides the state change). For every device, every policy and both
acquire variants, with failed assertions recorded and not fatal: the call returns 0 exactly when
`active_count` went up by one; it returns a non-zero code (1 for
`kbase_pm_context_active_handle_suspend`, `-ENOENT` or `-EAGAIN` for
`kbase_pm_context_hold_noactivate_handle_suspend`) exactly when `active_count` is unchanged and
no hardware call was made; the suspend flag and the power flag are unchanged in every case. -/
theorem C18_return_code_decides (cfg : Config) (kbdev : kbase_device)
    (suspend_handler : kbase_pm_suspend_handler) :
    (((kbase_pm_context_active_handle_suspend cfg kbdev suspend_handler).1 = 0 ↔
          (kbase_pm_context_active_handle_suspend cfg kbdev suspend_handler).2.1.active_count
            = kbdev.active_count + 1)
      ∧ ((kbase_pm_context_active_handle_suspend cfg kbdev suspend_handler).1 ≠ 0 ↔
          (kbase_pm_context_active_handle_suspend cfg kbdev suspend_handler).2.1.active_count
              = kbdev.active_count
            ∧ ∀ e ∈ (kbase_pm_context_active_handle_suspend cfg kbdev suspend_handler).2.2,
                e.is_hw_call = false)
      ∧ ((kbase_pm_context_active_handle_suspend cfg kbdev suspend_handler).1 = 0
          ∨ (kbase_pm_context_active_handle_suspend cfg kbdev suspend_handler).1 = 1)
      ∧ (kbase_pm_context_active_handle_suspend cfg kbdev suspend_handler).2.1.suspending
          = kbdev.suspending
      ∧ (kbase_pm_context_active_handle_suspend cfg kbdev suspend_handler).2.1.gpu_powered
          = kbdev.gpu_powered)
    ∧ (((kbase_pm_context_hold_noactivate_handle_suspend kbdev suspend_handler).1 = 0 ↔
          (kbase_pm_context_hold_noactivate_handle_suspend kbdev suspend_handler).2.1.active_count
            = kbdev.active_count + 1)
      ∧ ((kbase_pm_context_hold_noactivate_handle_suspend kbdev suspend_handler).1 ≠ 0 ↔
          (kbase_pm_context_hold_noactivate_handle_suspend kbdev suspend_handler).2.1.active_count
              = kbdev.active_count
            ∧ ∀ e ∈ (kbase_pm_context_hold_noactivate_handle_suspend kbdev suspend_handler).2.2,
                e.is_hw_call = false)
      ∧ ((kbase_pm_context_hold_noactivate_handle_suspend kbdev suspend_handler).1 = 0
          ∨ (kbase_pm_context_hold_noactivate_handle_suspend kbdev suspend_handler).1 = -ENOENT
          ∨ (kbase_pm_context_hold_noactivate_handle_suspend kbdev suspend_handler).1 = -EAGAIN)
      ∧ (kbase_pm_context_hold_noactivate_handle_suspend kbdev suspend_handler).2.1.suspending
          = kbdev.suspending
      ∧ (kbase_pm_context_hold_noactivate_handle_suspend kbdev suspend_handler).2.1.gpu_powered
          = kbdev.gpu_powered) := by
  refine ⟨⟨?_, ?_, ?_, (active_handle_suspend_flags cfg kbdev suspend_handler).1,
      (active_handle_suspend_flags cfg kbdev suspend_handler).2⟩,
    ⟨?_, ?_, ?_, (hold_noactivate_flags kbdev suspend_handler).1,
      (hold_noactivate_flags kbdev suspend_handler).2⟩⟩
  · rcases active_handle_suspend_effect cfg kbdev suspend_handler with ⟨hr, hc⟩ | ⟨hr, hd, _⟩
    · exact ⟨fun _ => hc, fun _ => hr⟩
    · rw [hr, hd]
      exact ⟨fun h => absurd h (by decide), fun h => by omega⟩
  · rcases active_handle_suspend_effect cfg kbdev suspend_handler with ⟨hr, hc⟩ | ⟨hr, hd, hs⟩
    · rw [hr, hc]
      exact ⟨fun h => absurd rfl h, fun h => by omega⟩
    · refine ⟨fun _ => ⟨by rw [hd], ?_⟩, fun _ => by rw [hr]; decide⟩
      have hrej := active_handle_suspend_rejected_trace cfg kbdev suspend_handler hr
      intro e he
      exact hrej e he
  · rcases active_handle_suspend_effect cfg kbdev suspend_handler with ⟨hr, _⟩ | ⟨hr, _, _⟩
    · exact Or.inl hr
    · exact Or.inr hr
  · unfold kbase_pm_context_hold_noactivate_handle_suspend kbase_pm_is_suspending
    cases suspend_handler <;> cases hs : kbdev.suspending <;> cases hp : kbdev.gpu_powered <;>
      simp [hs, hp, ENOENT, EAGAIN]
  · unfold kbase_pm_context_hold_noactivate_handle_suspend kbase_pm_is_suspending
      hold_lock_all hold_unlock_all
    cases suspend_handler <;> cases hs : kbdev.suspending <;> cases hp : kbdev.gpu_powered <;>
      simp [hs, hp, ENOENT, EAGAIN, Event.is_hw_call]
  · unfold kbase_pm_context_hold_noactivate_handle_suspend kbase_pm_is_suspending
    cases suspend_handler <;> cases hs : kbdev.suspending <;> cases hp : kbdev.gpu_powered <;>
      simp [hs, hp, ENOENT, EAGAIN]

/-- C18 at concrete inputs: a granted acquire on the initial device, and a rejected try-acquire
on the same device (power off). -/
theorem C18_return_code_decides_witness :
    (kbase_pm_context_active_handle_suspend cfg_plain kbdev_init
        kbase_pm_suspend_handler.KBASE_PM_SUSPEND_HANDLER_DONT_INCREASE).2.1.active_count
      = kbdev_init.active_count + 1
    ∧ (kbase_pm_context_hold_noactivate_handle_suspend kbdev_init
        kbase_pm_suspend_handler.KBASE_PM_SUSPEND_HANDLER_DONT_INCREASE).2.1.active_count
      = kbdev_init.active_count :=
  ⟨(C18_return_code_decides cfg_plain kbdev_init
      kbase_pm_suspend_handler.KBASE_PM_SUSPEND_HANDLER_DONT_INCREASE).1.1.mp (by decide),
   ((C18_return_code_decides cfg_plain kbdev_init
      kbase_pm_suspend_handler.KBASE_PM_SUSPEND_HANDLER_DONT_INCREASE).2.2.1.mp (by decide)).1⟩

/-- C19 (timeline event pairing). On every path of `kbase_pm_context_active_handle_suspend`,
granted or rejected, the `GPU_ACTIVE` timeline "send" event and the `GPU_ACTIVE` "handle" event
are each emitted once when `active_count` read on entry was 0 and not at all otherwise, the
"handle" after the "send"; the same holds for `kbase_pm_context_idle` with `GPU_IDLE`. Hence a
`kbase_pm_context_idle` made with `active_count > 0` emits no timeline event, also on the
`1 -> 0` transition. -/
theorem C19_timeline_pairing (cfg : Config) (kbdev : kbase_device)
    (suspend_handler : kbase_pm_suspend_handler) :
    ((kbase_pm_context_active_handle_suspend cfg kbdev suspend_handler).2.2.count
          (Event.timeline_pm_send_event TimelineEvent.KBASE_TIMELINE_PM_EVENT_GPU_ACTIVE)
        = (if kbdev.active_count = 0 then 1 else 0)
      ∧ (kbase_pm_context_active_handle_suspend cfg kbdev suspend_handler).2.2.count
          (Event.timeline_pm_handle_event TimelineEvent.KBASE_TIMELINE_PM_EVENT_GPU_ACTIVE)
        = (if kbdev.active_count = 0 then 1 else 0)
      ∧ (kbdev.active_count = 0 →
          ∃ between after : List Event,
            (kbase_pm_context_active_handle_suspend cfg kbdev suspend_handler).2.2
              = Event.timeline_pm_send_event TimelineEvent.KBASE_TIMELINE_PM_EVENT_GPU_ACTIVE
                :: between
                ++ Event.timeline_pm_handle_event TimelineEvent.KBASE_TIMELINE_PM_EVENT_GPU_ACTIVE
                :: after))
    ∧ ((kbase_pm_context_idle cfg kbdev).2.count
          (Event.timeline_pm_send_event TimelineEvent.KBASE_TIMELINE_PM_EVENT_GPU_IDLE)
        = (if kbdev.active_count = 0 then 1 else 0)
      ∧ (kbase_pm_context_idle cfg kbdev).2.count
          (Event.timeline_pm_handle_event TimelineEvent.KBASE_TIMELINE_PM_EVENT_GPU_IDLE)
        = (if kbdev.active_count = 0 then 1 else 0)
      ∧ (kbdev.active_count = 0 →
          ∃ between after : List Event,
            (kbase_pm_context_idle cfg kbdev).2
              = Event.timeline_pm_send_event TimelineEvent.KBASE_TIMELINE_PM_EVENT_GPU_IDLE
                :: between
                ++ Event.timeline_pm_handle_event TimelineEvent.KBASE_TIMELINE_PM_EVENT_GPU_IDLE
                :: after))
    ∧ (0 < kbdev.active_count →
        ∀ e ∈ (kbase_pm_context_idle cfg kbdev).2, e.is_timeline_pm = false) := by
  refine ⟨⟨active_handle_suspend_timeline_send cfg kbdev suspend_handler,
      active_handle_suspend_timeline_handle cfg kbdev suspend_handler, ?_⟩,
    ⟨context_idle_timeline_send cfg kbdev, context_idle_timeline_handle cfg kbdev, ?_⟩,
    context_idle_no_timeline cfg kbdev⟩
  · intro h0
    unfold kbase_pm_context_active_handle_suspend kbase_pm_is_suspending
    cases suspend_handler <;> cases hs : kbdev.suspending <;>
      first
      | (refine ⟨[Event.lock Lock.runpool_mutex, Event.lock Lock.pm_lock,
            Event.unlock Lock.pm_lock, Event.unlock Lock.runpool_mutex], [], ?_⟩
         simp [h0, hs]
         done)
      | (refine ⟨[Event.lock Lock.runpool_mutex, Event.lock Lock.pm_lock,
            Event.timeline_context_active 1,
            Event.trace_add_refcount TraceCode.PM_CONTEXT_ACTIVE 1],
          Event.hwaccess_pm_gpu_active :: sec_utilization_events cfg true
            ++ [Event.unlock Lock.pm_lock, Event.unlock Lock.runpool_mutex], ?_⟩
         simp [h0, hs]
         done)
      | (refine ⟨[Event.lock Lock.runpool_mutex, Event.lock Lock.pm_lock,
            Event.debug_assert_fail Assertion.unreachable,
            Event.timeline_context_active 1,
            Event.trace_add_refcount TraceCode.PM_CONTEXT_ACTIVE 1],
          Event.hwaccess_pm_gpu_active :: sec_utilization_events cfg true
            ++ [Event.unlock Lock.pm_lock, Event.unlock Lock.runpool_mutex], ?_⟩
         simp [h0, hs])
  · intro h0
    unfold kbase_pm_context_idle
    refine ⟨[Event.lock Lock.runpool_mutex, Event.lock Lock.pm_lock,
        Event.timeline_context_active (-1),
        Event.trace_add_refcount TraceCode.PM_CONTEXT_IDLE (-1),
        Event.debug_assert_fail Assertion.count_nonneg],
      [Event.unlock Lock.pm_lock, Event.unlock Lock.runpool_mutex], ?_⟩
    simp [h0]

/-- C19 at concrete inputs: an acquire from the initial device, and the release of the last
lease. -/
theorem C19_timeline_pairing_witness :
    (∃ between after : List Event,
        (kbase_pm_context_active_handle_suspend cfg_plain kbdev_init
            kbase_pm_suspend_handler.KBASE_PM_SUSPEND_HANDLER_DONT_INCREASE).2.2
          = Event.timeline_pm_send_event TimelineEvent.KBASE_TIMELINE_PM_EVENT_GPU_ACTIVE
            :: between
            ++ Event.timeline_pm_handle_event TimelineEvent.KBASE_TIMELINE_PM_EVENT_GPU_ACTIVE
            :: after)
    ∧ ∀ e ∈ (kbase_pm_context_idle cfg_plain (kbdev_powered 1 false)).2,
        e.is_timeline_pm = false :=
  ⟨(C19_timeline_pairing cfg_plain kbdev_init
      kbase_pm_suspend_handler.KBASE_PM_SUSPEND_HANDLER_DONT_INCREASE).1.2.2 rfl,
   (C19_timeline_pairing cfg_plain (kbdev_powered 1 false)
      kbase_pm_suspend_handler.KBASE_PM_SUSPEND_HANDLER_DONT_INCREASE).2.2 (by decide)⟩

end MaliKbasePm
